import Mathlib

/-! # KodeboldsEngineMK2: entity spawners, system registration and the GUI manager

A shallow embedding of

* `ExampleGame/Header Files/GameClasses/EntitySpawner.h` (the ten `Spawn*` functions),
* `ExampleGame/Source Files/main.cpp` (`wWinMain`, up to the message loop),
* `ExampleGame/Header Files/Scenes/GameScene.h` (the member initialisers),
* `KodeboldsEngineMK2/Source Files/Managers/GUIManager.cpp` (`Instance`, the bar functions,
  `Update`, `LoadSprite`, `LoadFont`, `CreateButton`, `Write`),
* `KodeboldsEngineMK2/Header Files/Components/Transform.h`.

Objects that are reached through a `std::shared_ptr` live in a heap indexed by
handles, so that *which* object a call is issued on is visible in the model.
`float` is an abstract type `F`: the code embedded here only stores floats, or
combines them with the operations an `Env` supplies.
-/

namespace Kodebolds

/-! ## KodeboldsMath -/

/-- Four floats, `KodeboldsMath::Vector4`. -/
structure Vector4 (F : Type) where
  X : F
  Y : F
  Z : F
  W : F
deriving DecidableEq, Repr

/-- Three floats, `KodeboldsMath::Vector3`. -/
structure Vector3 (F : Type) where
  X : F
  Y : F
  Z : F
deriving DecidableEq, Repr

/-- The first three members of a vector, `Vector4::XYZ()`. -/
def Vector4.XYZ {F : Type} (v : Vector4 F) : Vector3 F :=
  { X := v.X, Y := v.Y, Z := v.Z }

/-! ## Components

Only `Transform.h` is among the sources.  The other component records are
declared in headers that are not; their members are read off the aggregate
initialisers and the member assignments of `EntitySpawner.h`, in that order.
-/

/-- The enumerators of `BlendState` that the spawners use. -/
inductive BlendState
  | NOBLEND
  | ALPHABLEND
deriving DecidableEq, Repr

/-- The enumerators of `CullState` that the spawners use. -/
inductive CullState
  | NONE
  | FRONT
  | BACK
deriving DecidableEq, Repr

/-- The enumerators of `DepthState` that the spawners use. -/
inductive DepthState
  | LESSEQUAL
deriving DecidableEq, Repr

/-- Record `Geometry{ filename }`. -/
structure Geometry where
  filename : String
deriving DecidableEq, Repr

/-- Record `Shader{ filename, blend, cull, depth, render targets, flag }`. -/
structure Shader where
  filename : String
  blendState : BlendState
  cullState : CullState
  depthState : DepthState
  renderTargets : List Int
  flag : Bool
deriving DecidableEq, Repr

/-- Record `PointLight{ colour, range }`. -/
structure PointLight (F : Type) where
  colour : Vector4 F
  range : F
deriving DecidableEq, Repr

/-- The 4x4 float matrix `DirectX::XMFLOAT4X4`. -/
structure XMFLOAT4X4 (F : Type) where
  m : Fin 4 → Fin 4 → F

/-- Record `Transform` of `Transform.h`.  `EntitySpawner.h` writes the members
`mTranslation`, `mRotation` and `mScale` as `translation`, `rotation` and
`scale`. -/
structure Transform (F : Type) where
  mTransform : XMFLOAT4X4 F
  mTranslation : Vector4 F
  mRotation : Vector4 F
  mScale : Vector4 F
  mForward : Vector4 F
  mRight : Vector4 F
  mUp : Vector4 F

/-- Record `Audio`, with the members the spawner assigns. -/
structure Audio (F : Type) where
  filename : String
  active : Bool
  loop : Bool
  volume : F
  pitch : F
  pan : F
deriving DecidableEq, Repr

/-- Record `Texture{ diffuse, normal, third map }`. -/
structure Texture where
  diffuse : String
  normal : String
  height : String
deriving DecidableEq, Repr

/-- Record `Velocity{ acceleration, velocity, maxSpeed }`. -/
structure Velocity (F : Type) where
  acceleration : Vector4 F
  velocity : Vector4 F
  maxSpeed : F
deriving DecidableEq, Repr

/-- Record `Colour{ colour }`. -/
structure Colour (F : Type) where
  colour : Vector4 F
deriving DecidableEq, Repr

/-- Record `SphereCollider{ radius, collision mask, ignore mask }`. -/
structure SphereCollider (F : Type) where
  radius : F
  collisionMask : Int
  ignoreCollisionMask : Int
deriving DecidableEq, Repr

/-- Record `BoxCollider{ min, max, collision mask, ignore mask }`. -/
structure BoxCollider (F : Type) where
  minBounds : Vector3 F
  maxBounds : Vector3 F
  collisionMask : Int
  ignoreCollisionMask : Int
deriving DecidableEq, Repr

/-- Record `Camera{ FOV, near, far, list, flag }`. -/
structure Camera where
  FOV : Int
  near : Int
  far : Int
  targets : List Int
  flag : Bool
deriving DecidableEq, Repr

/-- Record `Gravity`, only ever value-initialised by the spawners. -/
structure Gravity where
deriving DecidableEq, Repr

/-- The component kinds that have an `AddXComp` call in `EntitySpawner.h`. -/
inductive ComponentKind
  | Geometry
  | Shader
  | PointLight
  | Transform
  | Audio
  | Texture
  | Velocity
  | Colour
  | SphereCollider
  | BoxCollider
  | Camera
  | Gravity
deriving DecidableEq, Repr

/-- A component value of any kind: the first argument of an `AddXComp` call. -/
inductive Component (F : Type)
  | geometry (c : Geometry)
  | shader (c : Shader)
  | pointLight (c : PointLight F)
  | transform (c : Transform F)
  | audio (c : Audio F)
  | texture (c : Texture)
  | velocity (c : Velocity F)
  | colour (c : Colour F)
  | sphereCollider (c : SphereCollider F)
  | boxCollider (c : BoxCollider F)
  | camera (c : Camera)
  | gravity (c : Gravity)

/-- The kind of a component value. -/
def Component.kind {F : Type} : Component F → ComponentKind
  | .geometry _ => .Geometry
  | .shader _ => .Shader
  | .pointLight _ => .PointLight
  | .transform _ => .Transform
  | .audio _ => .Audio
  | .texture _ => .Texture
  | .velocity _ => .Velocity
  | .colour _ => .Colour
  | .sphereCollider _ => .SphereCollider
  | .boxCollider _ => .BoxCollider
  | .camera _ => .Camera
  | .gravity _ => .Gravity

/-! ## Systems -/

/-- A window handle, `HWND`. -/
abbrev HWND := Nat

/-- The system objects that `wWinMain` constructs, with their constructor
arguments. -/
inductive ISystem
  | RenderSystem_DX (hWnd : HWND) (a b c : Int)
  | RenderSystem_GL (hWnd : HWND) (a b : Int)
  | TransformSystem
  | MovementSystem
  | CollisionCheckSystem (a b : Int)
  | CollisionResponseSystem
  | AudioSystem_DX
  | AudioSystem_GL
deriving DecidableEq, Repr

/-- Whether a system object is one of the two render systems. -/
def ISystem.isRenderSystem : ISystem → Bool
  | .RenderSystem_DX _ _ _ _ => true
  | .RenderSystem_GL _ _ _ => true
  | _ => false

/-! ## The ECS manager -/

/-- A call received by an ECS manager. -/
inductive Call (F : Type)
  | createEntity (id : Int)
  | addComp (c : Component F) (id : Int)
  | addRenderSystem (s : ISystem)
  | addUpdateSystem (s : ISystem)

/-- Modelled from the spec: the class `ECSManager` (ECSManager.h and its source
file are not among the sources).  The entity registry is the signature of every
entity identifier (spec 3, 4.1), the scheduler is the ordered list of update
systems and the one render system slot (spec 4.4).  `calls` records every call
the manager received, oldest first, and `duplicateAdds` every `AddXComp` call
that found the kind already present on the entity (spec 7, `DuplicateComponent`);
both are observations: no member function reads them. -/
structure ECSManager (F : Type) where
  signatures : Int → Finset ComponentKind
  updateSystems : List ISystem
  renderSystem : Option ISystem
  duplicateAdds : List (ComponentKind × Int)
  calls : List (Call F)

/-- Modelled from the spec: `CreateEntity() -> EntityID` "allocates a fresh or
recycled identifier with an empty signature" (spec 4.1).  Which identifier is
chosen is left to `alloc`, any function of the manager's state. -/
def ECSManager.CreateEntity {F : Type} (alloc : ECSManager F → Int) (m : ECSManager F) :
    Int × ECSManager F :=
  let id := alloc m
  (id, { m with
    signatures := Function.update m.signatures id ∅
    calls := m.calls ++ [Call.createEntity id] })

/-- Modelled from the spec: the common body of every `AddXComp(data, id)`: the
bit of the component's kind is set in the signature of `id` (spec 4.2, 4.5). -/
def ECSManager.addComp {F : Type} (m : ECSManager F) (c : Component F) (id : Int) :
    ECSManager F :=
  { m with
    signatures := Function.update m.signatures id (insert c.kind (m.signatures id))
    duplicateAdds :=
      if c.kind ∈ m.signatures id then m.duplicateAdds ++ [(c.kind, id)] else m.duplicateAdds
    calls := m.calls ++ [Call.addComp c id] }

/-- Modelled from the spec: `AddGeometryComp`. -/
def ECSManager.AddGeometryComp {F : Type} (m : ECSManager F) (c : Geometry) (id : Int) :=
  m.addComp (.geometry c) id

/-- Modelled from the spec: `AddShaderComp`. -/
def ECSManager.AddShaderComp {F : Type} (m : ECSManager F) (c : Shader) (id : Int) :=
  m.addComp (.shader c) id

/-- Modelled from the spec: `AddPointLightComp`. -/
def ECSManager.AddPointLightComp {F : Type} (m : ECSManager F) (c : PointLight F) (id : Int) :=
  m.addComp (.pointLight c) id

/-- Modelled from the spec: `AddTransformComp`. -/
def ECSManager.AddTransformComp {F : Type} (m : ECSManager F) (c : Transform F) (id : Int) :=
  m.addComp (.transform c) id

/-- Modelled from the spec: `AddAudioComp`. -/
def ECSManager.AddAudioComp {F : Type} (m : ECSManager F) (c : Audio F) (id : Int) :=
  m.addComp (.audio c) id

/-- Modelled from the spec: `AddTextureComp`. -/
def ECSManager.AddTextureComp {F : Type} (m : ECSManager F) (c : Texture) (id : Int) :=
  m.addComp (.texture c) id

/-- Modelled from the spec: `AddVelocityComp`. -/
def ECSManager.AddVelocityComp {F : Type} (m : ECSManager F) (c : Velocity F) (id : Int) :=
  m.addComp (.velocity c) id

/-- Modelled from the spec: `AddColourComp`. -/
def ECSManager.AddColourComp {F : Type} (m : ECSManager F) (c : Colour F) (id : Int) :=
  m.addComp (.colour c) id

/-- Modelled from the spec: `AddSphereColliderComp`. -/
def ECSManager.AddSphereColliderComp {F : Type} (m : ECSManager F) (c : SphereCollider F)
    (id : Int) :=
  m.addComp (.sphereCollider c) id

/-- Modelled from the spec: `AddBoxColliderComp`. -/
def ECSManager.AddBoxColliderComp {F : Type} (m : ECSManager F) (c : BoxCollider F) (id : Int) :=
  m.addComp (.boxCollider c) id

/-- Modelled from the spec: `AddCameraComp`. -/
def ECSManager.AddCameraComp {F : Type} (m : ECSManager F) (c : Camera) (id : Int) :=
  m.addComp (.camera c) id

/-- Modelled from the spec: `AddGravityComp`. -/
def ECSManager.AddGravityComp {F : Type} (m : ECSManager F) (c : Gravity) (id : Int) :=
  m.addComp (.gravity c) id

/-- Modelled from the spec: `AddRenderSystem` fills the one render system slot
(spec 4.4, "at most one render system"). -/
def ECSManager.AddRenderSystem {F : Type} (m : ECSManager F) (s : ISystem) : ECSManager F :=
  { m with
    renderSystem := some s
    calls := m.calls ++ [Call.addRenderSystem s] }

/-- Modelled from the spec: "`AddUpdateSystem(system)` appends" (spec 4.4). -/
def ECSManager.AddUpdateSystem {F : Type} (m : ECSManager F) (s : ISystem) : ECSManager F :=
  { m with
    updateSystems := m.updateSystems ++ [s]
    calls := m.calls ++ [Call.addUpdateSystem s] }

/-- What a frame does, in order: a system's tick begins, a system's tick ends. -/
inductive TickEvent
  | tickBegins (s : ISystem)
  | tickEnds (s : ISystem)
deriving DecidableEq, Repr

/-- The tick events of one system: its tick begins, then ends. -/
def ticks (s : ISystem) : List TickEvent :=
  [TickEvent.tickBegins s, TickEvent.tickEnds s]

/-- Modelled from the spec: the per-frame driver `Update()` "invokes each
registered update system's tick once, in registration order, then invokes the
render system's tick once" (spec 4.4); ticks run to completion (spec 5).  The
value is the frame's sequence of tick events. -/
def ECSManager.Update {F : Type} (m : ECSManager F) : List TickEvent :=
  (m.updateSystems ++ m.renderSystem.toList).flatMap ticks

/-! ## The GUI manager and AntTweakBar -/

/-- A bar pointer, `TwBar*`. -/
abbrev TwBar := Nat

/-- A call into the AntTweakBar library. -/
inductive TwCall
  | TwNewBar (name : String) (result : TwBar)
  | TwDeleteBar (bar : TwBar)
  | TwRefreshBar (bar : TwBar)
  | TwDraw
  | TwDeleteAllBars
  | TwTerminate
deriving DecidableEq, Repr

/-- The members of `GUIManager` that the bar functions use: `mBars`, the vector
of (name, bar pointer) pairs. -/
structure GUIManager where
  mBars : List (String × TwBar)
deriving DecidableEq, Repr

/-- The default constructor `GUIManager::GUIManager()`: an empty body, so the
vector starts empty. -/
def GUIManager.new : GUIManager :=
  { mBars := [] }

/-- Function `GUIManager::AddBar`.  `tw` is the sequence of AntTweakBar calls so
far; the pointer that `TwNewBar` returns is the library's choice, `twNewBar`. -/
def GUIManager.AddBar (twNewBar : List TwCall → String → TwBar) (pBarName : String)
    (g : GUIManager) (tw : List TwCall) : GUIManager × List TwCall :=
  let newBar := twNewBar tw pBarName
  let tw := tw ++ [TwCall.TwNewBar pBarName newBar]
  ({ g with mBars := g.mBars ++ [(pBarName, newBar)] }, tw)

/-- Function `GUIManager::DeleteBar`.  The iterator of `std::find_if` is an
index, `mBars.length` standing for `end()`; dereferencing `end()` is undefined
behaviour, the value `none`. -/
def GUIManager.DeleteBar (pBarName : String) (g : GUIManager) (tw : List TwCall) :
    Option (GUIManager × List TwCall) :=
  let it := g.mBars.findIdx fun bar => bar.1 == pBarName
  match g.mBars[it]? with
  | none => none
  | some bar =>
    let tw := tw ++ [TwCall.TwDeleteBar bar.2]
    some ({ g with mBars := g.mBars.eraseIdx it }, tw)

/-- Function `GUIManager::Draw`: the AntTweakBar calls it adds. -/
def GUIManager.Draw (g : GUIManager) (tw : List TwCall) : GUIManager × List TwCall :=
  let tw := g.mBars.foldl (fun tw bar => tw ++ [TwCall.TwRefreshBar bar.2]) tw
  (g, tw ++ [TwCall.TwDraw])

/-- Function `GUIManager::Cleanup`, a `const` member function. -/
def GUIManager.Cleanup (g : GUIManager) (tw : List TwCall) : GUIManager × List TwCall :=
  let tw := tw ++ [TwCall.TwDeleteAllBars]
  let tw := tw ++ [TwCall.TwTerminate]
  (g, tw)

/-! ## The process: singletons and the heap -/

/-- The address of a manager object. -/
abbrev Handle := Nat

/-- The part of the process the embedded code acts on: the function-local
statics of the two `Instance()` functions (`none` before their initialisation),
the manager objects by address, the next address `new` hands out, and the calls
the AntTweakBar library has received. -/
structure World (F : Type) where
  ecsInstance : Option Handle
  guiInstance : Option Handle
  ecs : Handle → ECSManager F
  gui : Handle → GUIManager
  nextHandle : Handle
  tw : List TwCall

/-- A call `h->f(...)` of a member function of `ECSManager` without a result. -/
def World.ecsCall {F : Type} (w : World F) (h : Handle) (f : ECSManager F → ECSManager F) :
    World F :=
  { w with ecs := Function.update w.ecs h (f (w.ecs h)) }

/-- A call `h->f(...)` of a member function of `ECSManager` with a result. -/
def World.ecsCallRet {F α : Type} (w : World F) (h : Handle)
    (f : ECSManager F → α × ECSManager F) : α × World F :=
  ((f (w.ecs h)).1, { w with ecs := Function.update w.ecs h (f (w.ecs h)).2 })

/-- A call `h->f(...)` of a member function of `GUIManager`. -/
def World.guiCall {F : Type} (w : World F) (h : Handle)
    (f : GUIManager → List TwCall → GUIManager × List TwCall) : World F :=
  { w with
    gui := Function.update w.gui h (f (w.gui h) w.tw).1
    tw := (f (w.gui h) w.tw).2 }

/-- Function `GUIManager::Instance`: the static local `instance` is initialised
with `new GUIManager` the first time control passes through its declaration,
and returned. -/
def GUIManager.Instance {F : Type} (w : World F) : Handle × World F :=
  match w.guiInstance with
  | some inst => (inst, w)
  | none =>
    let p := w.nextHandle
    (p, { w with
      guiInstance := some p
      gui := Function.update w.gui p GUIManager.new
      nextHandle := p + 1 })

/-- Modelled from the spec: `ECSManager::Instance()` (not among the sources),
the "process-wide ECS Manager instance", "initialized once (first access), alive
for the process" (spec 5), in the shape of `GUIManager::Instance`.  `fresh` is
the state of a newly constructed manager. -/
def ECSManager.Instance {F : Type} (fresh : ECSManager F) (w : World F) : Handle × World F :=
  match w.ecsInstance with
  | some inst => (inst, w)
  | none =>
    let p := w.nextHandle
    (p, { w with
      ecsInstance := some p
      ecs := Function.update w.ecs p fresh
      nextHandle := p + 1 })

/-! ## What the sources leave to other files -/

/-- The parts of the program that the embedded functions use and whose
definitions are not among the sources: float literals and float arithmetic,
the default constructor `KodeboldsMath::Vector4()`, the constant
`CustomCollisionMask::FLOOR`, the identifier `CreateEntity` hands out and the
state of a newly constructed `ECSManager`. -/
structure Env (F : Type) where
  lit : ℚ → F
  add : F → F → F
  sub : F → F → F
  vector4Default : Vector4 F
  FLOOR : Int
  alloc : ECSManager F → Int
  fresh : ECSManager F

/-- Constructor `KodeboldsMath::Vector4(x, y, z, w)` on literals. -/
def Env.vector4 {F : Type} (env : Env F) (x y z w : ℚ) : Vector4 F :=
  { X := env.lit x, Y := env.lit y, Z := env.lit z, W := env.lit w }

/-- Constructor `KodeboldsMath::Vector3(x, y, z)` on literals. -/
def Env.vector3 {F : Type} (env : Env F) (x y z : ℚ) : Vector3 F :=
  { X := env.lit x, Y := env.lit y, Z := env.lit z }

/-- Operator `-` of `KodeboldsMath::Vector3`, member by member. -/
def Env.vsub {F : Type} (env : Env F) (a b : Vector3 F) : Vector3 F :=
  { X := env.sub a.X b.X, Y := env.sub a.Y b.Y, Z := env.sub a.Z b.Z }

/-- Operator `+` of `KodeboldsMath::Vector3`, member by member. -/
def Env.vadd {F : Type} (env : Env F) (a b : Vector3 F) : Vector3 F :=
  { X := env.add a.X b.X, Y := env.add a.Y b.Y, Z := env.add a.Z b.Z }

/-- Value-initialisation `Transform trans{}`: the matrix is zeroed, the vectors
are default-constructed. -/
def Env.transformDefault {F : Type} (env : Env F) : Transform F :=
  { mTransform := { m := fun _ _ => env.lit 0 }
    mTranslation := env.vector4Default
    mRotation := env.vector4Default
    mScale := env.vector4Default
    mForward := env.vector4Default
    mRight := env.vector4Default
    mUp := env.vector4Default }

/-- Value-initialisation `Velocity vel{}`. -/
def Env.velocityDefault {F : Type} (env : Env F) : Velocity F :=
  { acceleration := env.vector4Default
    velocity := env.vector4Default
    maxSpeed := env.lit 0 }

/-- Value-initialisation `Audio audio{}`. -/
def Env.audioDefault {F : Type} (env : Env F) : Audio F :=
  { filename := "", active := false, loop := false
    volume := env.lit 0, pitch := env.lit 0, pan := env.lit 0 }

/-- Value-initialisation `Texture tex{}`. -/
def textureDefault : Texture :=
  { diffuse := "", normal := "", height := "" }

/-! ## EntitySpawner.h

Every function takes the namespace-scope static `entitySpawnerEcsManager` as its
second argument and issues each call through it, as the source does.
-/

namespace EntitySpawner

/-- The initialiser of the static `entitySpawnerEcsManager`:
`ECSManager::Instance()`. -/
def entitySpawnerEcsManagerInit {F : Type} (env : Env F) (w : World F) : Handle × World F :=
  ECSManager.Instance env.fresh w

/-- Function `EntitySpawner::SpawnLaser`. -/
def SpawnLaser {F : Type} (env : Env F) (entitySpawnerEcsManager : Handle)
    (pPosition pScale pRotation pColour pAcceleration : Vector4 F) (pMaxSpeed pRadius : F)
    (pCollisionMask pIgnoreCollisionMask : Int) (pLightRange : F) (pSound : String)
    (w : World F) : Int × World F :=
  let (ID, w) := w.ecsCallRet entitySpawnerEcsManager (ECSManager.CreateEntity env.alloc)
  -- Geometry component
  let geo : Geometry := { filename := "sphere.obj" }
  let w := w.ecsCall entitySpawnerEcsManager (·.AddGeometryComp geo ID)
  -- Shader component
  let shader : Shader :=
    { filename := "defaultShader.fx", blendState := .NOBLEND, cullState := .BACK
      depthState := .LESSEQUAL, renderTargets := [], flag := true }
  let w := w.ecsCall entitySpawnerEcsManager (·.AddShaderComp shader ID)
  -- Light component
  let light : PointLight F := { colour := pColour, range := pLightRange }
  let w := w.ecsCall entitySpawnerEcsManager (·.AddPointLightComp light ID)
  -- Transform component
  let trans : Transform F := env.transformDefault
  let trans := { trans with mScale := pScale }
  let trans := { trans with mRotation := pRotation }
  let trans := { trans with mTranslation := pPosition }
  let w := w.ecsCall entitySpawnerEcsManager (·.AddTransformComp trans ID)
  -- Audio component
  let audio : Audio F := env.audioDefault
  let audio := { audio with filename := pSound }
  let audio := { audio with active := true }
  let audio := { audio with loop := false }
  let audio := { audio with volume := env.lit (1 / 2) }
  let audio := { audio with pitch := env.lit 1 }
  let audio := { audio with pan := env.lit 0 }
  let w := w.ecsCall entitySpawnerEcsManager (·.AddAudioComp audio ID)
  -- Texture component
  let tex : Texture := textureDefault
  let tex := { tex with diffuse := "stones.dds" }
  let tex := { tex with normal := "stones_NM_height.dds" }
  let w := w.ecsCall entitySpawnerEcsManager (·.AddTextureComp tex ID)
  -- Velocity component
  let vel : Velocity F :=
    { acceleration := pAcceleration, velocity := env.vector4Default, maxSpeed := pMaxSpeed }
  let w := w.ecsCall entitySpawnerEcsManager (·.AddVelocityComp vel ID)
  -- Colour component
  let colour : Colour F := { colour := pColour }
  let w := w.ecsCall entitySpawnerEcsManager (·.AddColourComp colour ID)
  -- SphereCollider component
  let sphere : SphereCollider F :=
    { radius := pRadius, collisionMask := pCollisionMask
      ignoreCollisionMask := pIgnoreCollisionMask }
  let w := w.ecsCall entitySpawnerEcsManager (·.AddSphereColliderComp sphere ID)
  (ID, w)

/-- Function `EntitySpawner::SpawnShip`. -/
def SpawnShip {F : Type} (env : Env F) (entitySpawnerEcsManager : Handle)
    (pPosition pScale pRotation : Vector4 F) (pMaxSpeed pRadius : F)
    (pCollisionMask pIgnoreCollisionMask : Int) (pDiffuse pNormal : String)
    (w : World F) : Int × World F :=
  let (ID, w) := w.ecsCallRet entitySpawnerEcsManager (ECSManager.CreateEntity env.alloc)
  -- Geometry component
  let geo : Geometry := { filename := "ship.obj" }
  let w := w.ecsCall entitySpawnerEcsManager (·.AddGeometryComp geo ID)
  -- Shader component
  let shader : Shader :=
    { filename := "defaultShader.fx", blendState := .NOBLEND, cullState := .BACK
      depthState := .LESSEQUAL, renderTargets := [0], flag := true }
  let w := w.ecsCall entitySpawnerEcsManager (·.AddShaderComp shader ID)
  -- Texture component
  let texture : Texture := { diffuse := pDiffuse, normal := pNormal, height := "" }
  let w := w.ecsCall entitySpawnerEcsManager (·.AddTextureComp texture ID)
  -- Transform component
  let trans : Transform F := env.transformDefault
  let trans := { trans with mScale := pScale }
  let trans := { trans with mRotation := pRotation }
  let trans := { trans with mTranslation := pPosition }
  let w := w.ecsCall entitySpawnerEcsManager (·.AddTransformComp trans ID)
  -- Velocity component
  let vel : Velocity F := env.velocityDefault
  let vel := { vel with maxSpeed := pMaxSpeed }
  let w := w.ecsCall entitySpawnerEcsManager (·.AddVelocityComp vel ID)
  -- SphereCollider component
  let sphere : SphereCollider F :=
    { radius := pRadius, collisionMask := pCollisionMask
      ignoreCollisionMask := pIgnoreCollisionMask }
  let w := w.ecsCall entitySpawnerEcsManager (·.AddSphereColliderComp sphere ID)
  (ID, w)

/-- Function `EntitySpawner::SpawnAsteroid`.  The source lists
`pIgnoreCollisionMask` before `pCollisionMask`. -/
def SpawnAsteroid {F : Type} (env : Env F) (entitySpawnerEcsManager : Handle)
    (pPosition pScale pRotation : Vector4 F) (pRadius : F)
    (pIgnoreCollisionMask pCollisionMask : Int) (pDiffuse pNormal : String)
    (w : World F) : Int × World F :=
  let (ID, w) := w.ecsCallRet entitySpawnerEcsManager (ECSManager.CreateEntity env.alloc)
  -- Geometry component
  let geo : Geometry := { filename := "asteroid.obj" }
  let w := w.ecsCall entitySpawnerEcsManager (·.AddGeometryComp geo ID)
  -- Shader component
  let shader : Shader :=
    { filename := "defaultShader.fx", blendState := .NOBLEND, cullState := .BACK
      depthState := .LESSEQUAL, renderTargets := [0], flag := true }
  let w := w.ecsCall entitySpawnerEcsManager (·.AddShaderComp shader ID)
  -- Texture component
  let texture : Texture := { diffuse := pDiffuse, normal := pNormal, height := "" }
  let w := w.ecsCall entitySpawnerEcsManager (·.AddTextureComp texture ID)
  -- Transform component
  let trans : Transform F := env.transformDefault
  let trans := { trans with mScale := pScale }
  let trans := { trans with mRotation := pRotation }
  let trans := { trans with mTranslation := pPosition }
  let w := w.ecsCall entitySpawnerEcsManager (·.AddTransformComp trans ID)
  -- SphereCollider component
  let sphere : SphereCollider F :=
    { radius := pRadius, collisionMask := pCollisionMask
      ignoreCollisionMask := pIgnoreCollisionMask }
  let w := w.ecsCall entitySpawnerEcsManager (·.AddSphereColliderComp sphere ID)
  -- Velocity component
  let velocity : Velocity F := env.velocityDefault
  let velocity := { velocity with maxSpeed := env.lit 50 }
  let w := w.ecsCall entitySpawnerEcsManager (·.AddVelocityComp velocity ID)
  (ID, w)

/-- Function `EntitySpawner::SpawnLaserGun`. -/
def SpawnLaserGun {F : Type} (env : Env F) (entitySpawnerEcsManager : Handle)
    (pPosition pScale pRotation : Vector4 F) (pDiffuse pNormal : String) (pMaxSpeed : F)
    (w : World F) : Int × World F :=
  let (ID, w) := w.ecsCallRet entitySpawnerEcsManager (ECSManager.CreateEntity env.alloc)
  -- Geometry component
  let geo : Geometry := { filename := "laser_gun.obj" }
  let w := w.ecsCall entitySpawnerEcsManager (·.AddGeometryComp geo ID)
  -- Shader component
  let shader : Shader :=
    { filename := "defaultShader.fx", blendState := .NOBLEND, cullState := .BACK
      depthState := .LESSEQUAL, renderTargets := [0], flag := true }
  let w := w.ecsCall entitySpawnerEcsManager (·.AddShaderComp shader ID)
  -- Texture component
  let texture : Texture := { diffuse := pDiffuse, normal := pNormal, height := "" }
  let w := w.ecsCall entitySpawnerEcsManager (·.AddTextureComp texture ID)
  -- Transform component
  let trans : Transform F := env.transformDefault
  let trans := { trans with mScale := pScale }
  let trans := { trans with mRotation := pRotation }
  let trans := { trans with mTranslation := pPosition }
  let w := w.ecsCall entitySpawnerEcsManager (·.AddTransformComp trans ID)
  -- Velocity component
  let vel : Velocity F := env.velocityDefault
  let vel := { vel with maxSpeed := pMaxSpeed }
  let w := w.ecsCall entitySpawnerEcsManager (·.AddVelocityComp vel ID)
  -- Gravity component
  let grav : Gravity := {}
  let w := w.ecsCall entitySpawnerEcsManager (·.AddGravityComp grav ID)
  (ID, w)

/-- Function `EntitySpawner::SpawnCamera`. -/
def SpawnCamera {F : Type} (env : Env F) (entitySpawnerEcsManager : Handle)
    (pPosition pScale pRotation : Vector4 F) (pFOV pNear pFar : Int) (pMaxSpeed : F)
    (w : World F) : Int × World F :=
  let (ID, w) := w.ecsCallRet entitySpawnerEcsManager (ECSManager.CreateEntity env.alloc)
  -- Camera component
  let cam : Camera := { FOV := pFOV, near := pNear, far := pFar, targets := [], flag := false }
  let w := w.ecsCall entitySpawnerEcsManager (·.AddCameraComp cam ID)
  -- Transform component
  let trans : Transform F := env.transformDefault
  let trans := { trans with mTranslation := pPosition }
  let trans := { trans with mScale := pScale }
  let trans := { trans with mRotation := pRotation }
  let w := w.ecsCall entitySpawnerEcsManager (·.AddTransformComp trans ID)
  -- Velocity component
  let vel : Velocity F := env.velocityDefault
  let vel := { vel with maxSpeed := pMaxSpeed }
  let w := w.ecsCall entitySpawnerEcsManager (·.AddVelocityComp vel ID)
  (ID, w)

/-- Function `EntitySpawner::SpawnPlayer`. -/
def SpawnPlayer {F : Type} (env : Env F) (entitySpawnerEcsManager : Handle)
    (pPosition pScale pRotation : Vector4 F) (pFOV pNear pFar : Int) (pMaxSpeed : F)
    (pBoxMin pBoxMax : Vector3 F) (pCollisionMask pIgnoreCollisionMask : Int)
    (w : World F) : Int × World F :=
  let (ID, w) := w.ecsCallRet entitySpawnerEcsManager (ECSManager.CreateEntity env.alloc)
  -- Camera component
  let cam : Camera := { FOV := pFOV, near := pNear, far := pFar, targets := [], flag := false }
  let w := w.ecsCall entitySpawnerEcsManager (·.AddCameraComp cam ID)
  -- Transform component
  let trans : Transform F := env.transformDefault
  let trans := { trans with mScale := pScale }
  let trans := { trans with mRotation := pRotation }
  let trans := { trans with mTranslation := pPosition }
  let w := w.ecsCall entitySpawnerEcsManager (·.AddTransformComp trans ID)
  -- Velocity component
  let vel : Velocity F := env.velocityDefault
  let vel := { vel with maxSpeed := pMaxSpeed }
  let w := w.ecsCall entitySpawnerEcsManager (·.AddVelocityComp vel ID)
  -- BoxCollider component
  let box : BoxCollider F :=
    { minBounds := pBoxMin, maxBounds := pBoxMax, collisionMask := pCollisionMask
      ignoreCollisionMask := pIgnoreCollisionMask }
  let w := w.ecsCall entitySpawnerEcsManager (·.AddBoxColliderComp box ID)
  -- Gravity component
  let grav : Gravity := {}
  let w := w.ecsCall entitySpawnerEcsManager (·.AddGravityComp grav ID)
  (ID, w)

/-- Function `EntitySpawner::SpawnEngine`. -/
def SpawnEngine {F : Type} (env : Env F) (entitySpawnerEcsManager : Handle)
    (pPosition pScale pRotation : Vector4 F) (pMaxSpeed : F) (pDiffuse pNormal : String)
    (w : World F) : Int × World F :=
  let (ID, w) := w.ecsCallRet entitySpawnerEcsManager (ECSManager.CreateEntity env.alloc)
  -- Geometry component
  let geo : Geometry := { filename := "quad100.obj" }
  let w := w.ecsCall entitySpawnerEcsManager (·.AddGeometryComp geo ID)
  -- Shader component
  let shader : Shader :=
    { filename := "thrusterShader.fx", blendState := .ALPHABLEND, cullState := .NONE
      depthState := .LESSEQUAL, renderTargets := [], flag := true }
  let w := w.ecsCall entitySpawnerEcsManager (·.AddShaderComp shader ID)
  -- Texture component
  let texture : Texture := { diffuse := pDiffuse, normal := pNormal, height := "" }
  let w := w.ecsCall entitySpawnerEcsManager (·.AddTextureComp texture ID)
  -- Transform component
  let trans : Transform F := env.transformDefault
  let trans := { trans with mScale := pScale }
  let trans := { trans with mRotation := pRotation }
  let trans := { trans with mTranslation := pPosition }
  let w := w.ecsCall entitySpawnerEcsManager (·.AddTransformComp trans ID)
  -- Velocity component
  let vel : Velocity F := env.velocityDefault
  let vel := { vel with maxSpeed := pMaxSpeed }
  let w := w.ecsCall entitySpawnerEcsManager (·.AddVelocityComp vel ID)
  (ID, w)

/-- Function `EntitySpawner::SpawnPlanetSurface`. -/
def SpawnPlanetSurface {F : Type} (env : Env F) (entitySpawnerEcsManager : Handle)
    (pPosition pScale pRotation : Vector4 F) (pDiffuse pNormal : String)
    (w : World F) : Int × World F :=
  let (ID, w) := w.ecsCallRet entitySpawnerEcsManager (ECSManager.CreateEntity env.alloc)
  -- Geometry component
  let geo : Geometry := { filename := "planet.obj" }
  let w := w.ecsCall entitySpawnerEcsManager (·.AddGeometryComp geo ID)
  -- Shader component
  let shader : Shader :=
    { filename := "defaultShader.fx", blendState := .NOBLEND, cullState := .BACK
      depthState := .LESSEQUAL, renderTargets := [0], flag := true }
  let w := w.ecsCall entitySpawnerEcsManager (·.AddShaderComp shader ID)
  -- Texture component
  let texture : Texture := { diffuse := pDiffuse, normal := pNormal, height := "" }
  let w := w.ecsCall entitySpawnerEcsManager (·.AddTextureComp texture ID)
  -- Transform component
  let trans : Transform F := env.transformDefault
  let trans := { trans with mScale := pScale }
  let trans := { trans with mRotation := pRotation }
  let trans := { trans with mTranslation := pPosition }
  let w := w.ecsCall entitySpawnerEcsManager (·.AddTransformComp trans ID)
  -- Box collider component
  let box : BoxCollider F :=
    { minBounds := env.vsub trans.mTranslation.XYZ (env.vector3 190 2 190)
      maxBounds := env.vadd trans.mTranslation.XYZ (env.vector3 190 2 190)
      collisionMask := env.FLOOR, ignoreCollisionMask := env.FLOOR }
  let w := w.ecsCall entitySpawnerEcsManager (·.AddBoxColliderComp box ID)
  (ID, w)

/-- Function `EntitySpawner::SpawnSun`.  The texture lines are commented out in
the source. -/
def SpawnSun {F : Type} (env : Env F) (entitySpawnerEcsManager : Handle)
    (pPosition pScale pRotation : Vector4 F) (w : World F) : Int × World F :=
  let (ID, w) := w.ecsCallRet entitySpawnerEcsManager (ECSManager.CreateEntity env.alloc)
  -- Geometry component
  let geo : Geometry := { filename := "sun.obj" }
  let w := w.ecsCall entitySpawnerEcsManager (·.AddGeometryComp geo ID)
  -- Shader component
  let shader : Shader :=
    { filename := "sunShader.fx", blendState := .NOBLEND, cullState := .BACK
      depthState := .LESSEQUAL, renderTargets := [], flag := true }
  let w := w.ecsCall entitySpawnerEcsManager (·.AddShaderComp shader ID)
  -- Transform component
  let trans : Transform F := env.transformDefault
  let trans := { trans with mTranslation := pPosition }
  let trans := { trans with mScale := pScale }
  let trans := { trans with mRotation := pRotation }
  let w := w.ecsCall entitySpawnerEcsManager (·.AddTransformComp trans ID)
  (ID, w)

/-- Function `EntitySpawner::SpawnSkyBox`. -/
def SpawnSkyBox {F : Type} (env : Env F) (entitySpawnerEcsManager : Handle)
    (w : World F) : Int × World F :=
  let (ID, w) := w.ecsCallRet entitySpawnerEcsManager (ECSManager.CreateEntity env.alloc)
  -- Geometry component
  let geom : Geometry := { filename := "cube.obj" }
  let w := w.ecsCall entitySpawnerEcsManager (·.AddGeometryComp geom ID)
  -- Shader component
  let shaderm : Shader :=
    { filename := "skyboxShader.fx", blendState := .NOBLEND, cullState := .FRONT
      depthState := .LESSEQUAL, renderTargets := [], flag := true }
  let w := w.ecsCall entitySpawnerEcsManager (·.AddShaderComp shaderm ID)
  -- Transform component
  let transCm : Transform F := env.transformDefault
  let transCm := { transCm with mScale := env.vector4 1 1 1 1 }
  let transCm := { transCm with mTranslation := env.vector4 0 0 0 1 }
  let w := w.ecsCall entitySpawnerEcsManager (·.AddTransformComp transCm ID)
  (ID, w)

end EntitySpawner

/-! ## The ten spawners as one family -/

/-- The ten functions of `EntitySpawner.h`. -/
inductive Spawner
  | SpawnLaser
  | SpawnShip
  | SpawnAsteroid
  | SpawnLaserGun
  | SpawnCamera
  | SpawnPlayer
  | SpawnEngine
  | SpawnPlanetSurface
  | SpawnSun
  | SpawnSkyBox
deriving DecidableEq, Repr

/-- A spawner together with an argument list for it. -/
inductive SpawnCall (F : Type)
  | SpawnLaser (pPosition pScale pRotation pColour pAcceleration : Vector4 F)
      (pMaxSpeed pRadius : F) (pCollisionMask pIgnoreCollisionMask : Int) (pLightRange : F)
      (pSound : String)
  | SpawnShip (pPosition pScale pRotation : Vector4 F) (pMaxSpeed pRadius : F)
      (pCollisionMask pIgnoreCollisionMask : Int) (pDiffuse pNormal : String)
  | SpawnAsteroid (pPosition pScale pRotation : Vector4 F) (pRadius : F)
      (pIgnoreCollisionMask pCollisionMask : Int) (pDiffuse pNormal : String)
  | SpawnLaserGun (pPosition pScale pRotation : Vector4 F) (pDiffuse pNormal : String)
      (pMaxSpeed : F)
  | SpawnCamera (pPosition pScale pRotation : Vector4 F) (pFOV pNear pFar : Int) (pMaxSpeed : F)
  | SpawnPlayer (pPosition pScale pRotation : Vector4 F) (pFOV pNear pFar : Int) (pMaxSpeed : F)
      (pBoxMin pBoxMax : Vector3 F) (pCollisionMask pIgnoreCollisionMask : Int)
  | SpawnEngine (pPosition pScale pRotation : Vector4 F) (pMaxSpeed : F)
      (pDiffuse pNormal : String)
  | SpawnPlanetSurface (pPosition pScale pRotation : Vector4 F) (pDiffuse pNormal : String)
  | SpawnSun (pPosition pScale pRotation : Vector4 F)
  | SpawnSkyBox

/-- The function a call is a call of. -/
def SpawnCall.spawner {F : Type} : SpawnCall F → Spawner
  | .SpawnLaser .. => .SpawnLaser
  | .SpawnShip .. => .SpawnShip
  | .SpawnAsteroid .. => .SpawnAsteroid
  | .SpawnLaserGun .. => .SpawnLaserGun
  | .SpawnCamera .. => .SpawnCamera
  | .SpawnPlayer .. => .SpawnPlayer
  | .SpawnEngine .. => .SpawnEngine
  | .SpawnPlanetSurface .. => .SpawnPlanetSurface
  | .SpawnSun .. => .SpawnSun
  | .SpawnSkyBox => .SpawnSkyBox

/-- Running a call: the function of `EntitySpawner.h` applied to the arguments. -/
def SpawnCall.run {F : Type} (env : Env F) (entitySpawnerEcsManager : Handle) :
    SpawnCall F → World F → Int × World F
  | .SpawnLaser p s r c a ms rad cm icm lr snd =>
    EntitySpawner.SpawnLaser env entitySpawnerEcsManager p s r c a ms rad cm icm lr snd
  | .SpawnShip p s r ms rad cm icm d n =>
    EntitySpawner.SpawnShip env entitySpawnerEcsManager p s r ms rad cm icm d n
  | .SpawnAsteroid p s r rad icm cm d n =>
    EntitySpawner.SpawnAsteroid env entitySpawnerEcsManager p s r rad icm cm d n
  | .SpawnLaserGun p s r d n ms =>
    EntitySpawner.SpawnLaserGun env entitySpawnerEcsManager p s r d n ms
  | .SpawnCamera p s r fov near far ms =>
    EntitySpawner.SpawnCamera env entitySpawnerEcsManager p s r fov near far ms
  | .SpawnPlayer p s r fov near far ms bmin bmax cm icm =>
    EntitySpawner.SpawnPlayer env entitySpawnerEcsManager p s r fov near far ms bmin bmax cm icm
  | .SpawnEngine p s r ms d n =>
    EntitySpawner.SpawnEngine env entitySpawnerEcsManager p s r ms d n
  | .SpawnPlanetSurface p s r d n =>
    EntitySpawner.SpawnPlanetSurface env entitySpawnerEcsManager p s r d n
  | .SpawnSun p s r =>
    EntitySpawner.SpawnSun env entitySpawnerEcsManager p s r
  | .SpawnSkyBox =>
    EntitySpawner.SpawnSkyBox env entitySpawnerEcsManager

/-- The bundle of component kinds the specification gives each archetype, in
the order the spawner adds them: the "fixed bundle of components representing a
game-object archetype" (spec 4.5). -/
def archetype : Spawner → List ComponentKind
  | .SpawnLaser =>
    [.Geometry, .Shader, .PointLight, .Transform, .Audio, .Texture, .Velocity, .Colour,
      .SphereCollider]
  | .SpawnShip => [.Geometry, .Shader, .Texture, .Transform, .Velocity, .SphereCollider]
  | .SpawnAsteroid => [.Geometry, .Shader, .Texture, .Transform, .SphereCollider, .Velocity]
  | .SpawnLaserGun => [.Geometry, .Shader, .Texture, .Transform, .Velocity, .Gravity]
  | .SpawnCamera => [.Camera, .Transform, .Velocity]
  | .SpawnPlayer => [.Camera, .Transform, .Velocity, .BoxCollider, .Gravity]
  | .SpawnEngine => [.Geometry, .Shader, .Texture, .Transform, .Velocity]
  | .SpawnPlanetSurface => [.Geometry, .Shader, .Texture, .Transform, .BoxCollider]
  | .SpawnSun => [.Geometry, .Shader, .Transform]
  | .SpawnSkyBox => [.Geometry, .Shader, .Transform]

/-- A call without the component data: what was called, on which entity. -/
inductive CallShape
  | createEntity (id : Int)
  | addComp (k : ComponentKind) (id : Int)
  | addRenderSystem (s : ISystem)
  | addUpdateSystem (s : ISystem)
deriving DecidableEq, Repr

/-- Forgetting the component data of a call. -/
def Call.shape {F : Type} : Call F → CallShape
  | .createEntity id => .createEntity id
  | .addComp c id => .addComp c.kind id
  | .addRenderSystem s => .addRenderSystem s
  | .addUpdateSystem s => .addUpdateSystem s

/-! ## GameScene.h -/

/-- The manager member of `GameScene` that concerns the ECS.  The constructor
body and the member functions are in a source file that is not among the
sources. -/
structure GameScene where
  mEcsManager : Handle
deriving DecidableEq, Repr

/-- The default member initialiser `mEcsManager = ECSManager::Instance()`. -/
def GameScene.memberInit {F : Type} (env : Env F) (w : World F) : GameScene × World F :=
  let (mEcsManager, w) := ECSManager.Instance env.fresh w
  ({ mEcsManager := mEcsManager }, w)

/-! ## main.cpp -/

/-- A build configuration, as far as `main.cpp` tests it: whether the macro
`DIRECTX` is defined (`#ifdef DIRECTX`), and the value of the macro `OPENGL` as
a preprocessor integer (`#elif OPENGL`), `none` when it is not defined. -/
structure Config where
  DIRECTX : Bool
  OPENGL : Option Int
deriving DecidableEq, Repr

/-- The group that `#ifdef DIRECTX ... #elif OPENGL ... #endif` keeps. -/
inductive Backend
  | directX
  | openGL
  | neither
deriving DecidableEq, Repr

/-- Evaluation of `#ifdef DIRECTX ... #elif OPENGL ... #endif`: the first group
when `DIRECTX` is defined; else the second when the expression `OPENGL` is not
zero, an identifier that is not a macro counting as `0`; else none. -/
def Config.backend (cfg : Config) : Backend :=
  if cfg.DIRECTX then .directX
  else if cfg.OPENGL.getD 0 ≠ 0 then .openGL
  else .neither

/-- Function `wWinMain`, lines 23 to 71: from its entry to the registration of
the audio system.  `InitWindow` is the outcome of the call `InitWindow(...)`:
`none` when it `FAILED`, else the window handle it stored in `hWnd`.  The
scene, thread, network and input managers are not part of `World`. -/
def wWinMainSetup {F : Type} (cfg : Config) (env : Env F) (InitWindow : Option HWND)
    (w : World F) : World F :=
  match InitWindow with
  | none => w
  | some hWnd =>
    -- Managers
    let (ecsManager, w) := ECSManager.Instance env.fresh w
    let (_, w) := GUIManager.Instance w
    -- Render system and input manager
    let w :=
      match cfg.backend with
      | .directX => w.ecsCall ecsManager (·.AddRenderSystem (.RenderSystem_DX hWnd 20 2 1))
      | .openGL => w.ecsCall ecsManager (·.AddRenderSystem (.RenderSystem_GL hWnd 20 2))
      | .neither => w
    -- Update systems
    let w := w.ecsCall ecsManager (·.AddUpdateSystem .TransformSystem)
    let w := w.ecsCall ecsManager (·.AddUpdateSystem .MovementSystem)
    let w := w.ecsCall ecsManager (·.AddUpdateSystem (.CollisionCheckSystem 1000 50))
    let w := w.ecsCall ecsManager (·.AddUpdateSystem .CollisionResponseSystem)
    -- Audio system
    let w :=
      match cfg.backend with
      | .directX => w.ecsCall ecsManager (·.AddUpdateSystem .AudioSystem_DX)
      | .openGL => w.ecsCall ecsManager (·.AddUpdateSystem .AudioSystem_GL)
      | .neither => w
    w

/-- The render system `wWinMain` constructs under a configuration. -/
def Config.renderSystems (cfg : Config) (hWnd : HWND) : List ISystem :=
  match cfg.backend with
  | .directX => [.RenderSystem_DX hWnd 20 2 1]
  | .openGL => [.RenderSystem_GL hWnd 20 2]
  | .neither => []

/-- The audio system `wWinMain` constructs under a configuration. -/
def Config.audioSystems (cfg : Config) : List ISystem :=
  match cfg.backend with
  | .directX => [.AudioSystem_DX]
  | .openGL => [.AudioSystem_GL]
  | .neither => []

/-! ## The three files in one run -/

/-- A run of the process in the order the program fixes: the static
`entitySpawnerEcsManager` is initialised before `wWinMain` is entered, `wWinMain`
registers the systems, a `GameScene` is constructed, and a spawner is called
through the static.  The value is the static, the scene, the entity spawned and
the process afterwards. -/
def programRun {F : Type} (cfg : Config) (env : Env F) (hWnd : HWND) (c : SpawnCall F)
    (w : World F) : (Handle × GameScene × Int) × World F :=
  let (entitySpawnerEcsManager, w) := EntitySpawner.entitySpawnerEcsManagerInit env w
  let w := wWinMainSetup cfg env (some hWnd) w
  let (scene, w) := GameScene.memberInit env w
  let (ID, w) := c.run env entitySpawnerEcsManager w
  ((entitySpawnerEcsManager, scene, ID), w)

/-! ## Concrete inputs -/

/-- An ECS manager that has received no call. -/
def emptyManager : ECSManager Int :=
  { signatures := fun _ => ∅, updateSystems := [], renderSystem := none
    duplicateAdds := [], calls := [] }

/-- An environment in which integers stand for floats (a literal is its
numerator) and the identifier handed out is the number of calls received. -/
def demoEnv : Env Int :=
  { lit := fun q => q.num
    add := fun a b => a + b
    sub := fun a b => a - b
    vector4Default := { X := 0, Y := 0, Z := 0, W := 0 }
    FLOOR := 4
    alloc := fun m => m.calls.length
    fresh := emptyManager }

/-- A process before any `Instance()` call. -/
def startWorld : World Int :=
  { ecsInstance := none, guiInstance := none
    ecs := fun _ => emptyManager, gui := fun _ => GUIManager.new
    nextHandle := 0, tw := [] }

/-- A process in which both singletons exist, at addresses 0 and 1. -/
def runningWorld : World Int :=
  { ecsInstance := some 0, guiInstance := some 1
    ecs := fun _ => emptyManager, gui := fun _ => GUIManager.new
    nextHandle := 2, tw := [] }

/-- A bar pointer for every new bar: one more than the number of calls so far. -/
def demoNewBar (tw : List TwCall) (_ : String) : TwBar :=
  tw.length + 1

/-- A manager holding two bars with the same name and one other. -/
def demoBars : GUIManager :=
  { GUIManager.new with mBars := [("hud", 11), ("stats", 12), ("stats", 13)] }

/-! ## GUIManager.cpp: sprites, texts and buttons

The members of `GUIManager`, and of the resource manager behind
`mResourceManager`, that the sprite, text and button functions use.  They are
apart from `mBars`: no function embedded here touches both.  The records
`Sprite`, `Text` and `Button` and the anchor enumerations are declared in
headers that are not among the sources; their members and enumerators are the
ones `GUIManager.cpp` names.
-/

/-- Two floats, `KodeboldsMath::Vector2`. -/
structure Vector2 (F : Type) where
  X : F
  Y : F
deriving DecidableEq, Repr

/-- Two floats, `DirectX::XMFLOAT2`. -/
structure XMFLOAT2 (F : Type) where
  x : F
  y : F
deriving DecidableEq, Repr

/-- Four floats, `DirectX::XMFLOAT4`. -/
structure XMFLOAT4 (F : Type) where
  x : F
  y : F
  z : F
  w : F
deriving DecidableEq, Repr

/-- The members `Width` and `Height` of `D3D11_TEXTURE2D_DESC`, both `UINT`. -/
structure D3D11_TEXTURE2D_DESC where
  Width : Nat
  Height : Nat
deriving DecidableEq, Repr

/-- Record `Sprite`.  `mTexture` is the texture the pointer holds, known by its
description, `none` for a null pointer; `mWidth` and `mHeight` hold the `UINT`
they were assigned. -/
structure Sprite (F : Type) where
  mTexture : Option D3D11_TEXTURE2D_DESC
  mOrigin : XMFLOAT2 F
  mPosition : XMFLOAT2 F
  mRotation : F
  mScale : F
  mIsVisible : Bool
  mWidth : Nat
  mHeight : Nat
deriving DecidableEq, Repr

/-- Record `Text`. -/
structure Text (F : Type) where
  mText : String
  mPosition : XMFLOAT2 F
  mOrigin : XMFLOAT2 F
  mScale : F
  mRotation : F
  mColour : XMFLOAT4 F
  mIsVisible : Bool
deriving DecidableEq, Repr

/-- A `std::function<void()>`, known by a number: which function it is. -/
abbrev OnClick := Nat

/-- Record `Button`. -/
structure Button (F : Type) where
  mSprite : Sprite F
  mText : Text F
  mTextColourHover : Vector4 F
  mTextColourOriginal : Vector4 F
  mOnClickFunction : OnClick
  mIsVisible : Bool
deriving DecidableEq, Repr

/-- Enumeration `SpritePosition`, with the enumerators the source names. -/
inductive SpritePosition
  | CENTRE_TOP
  | CENTRE_MIDDLE
  | CENTRE_BOTTOM
deriving DecidableEq, Repr

/-- Enumeration `SpriteOrigin`, with the enumerator the source names. -/
inductive SpriteOrigin
  | CENTRE
deriving DecidableEq, Repr

/-- Enumeration `ButtonPosition`, with the enumerators the source names. -/
inductive ButtonPosition
  | CENTRE_TOP
  | CENTRE_MIDDLE
  | CENTRE_BOTTOM
deriving DecidableEq, Repr

/-- Enumeration `ButtonOrigin`, with the enumerator the source names. -/
inductive ButtonOrigin
  | CENTRE
deriving DecidableEq, Repr

/-- Enumeration `TextOrigin`, with the enumerator the source names. -/
inductive TextOrigin
  | CENTRE
deriving DecidableEq, Repr

/-- Enumeration `TextPosition`: the four enumerators the `switch` statements
handle and the five whose cases are commented out. -/
inductive TextPosition
  | CENTRE_TOP
  | CENTRE_MIDDLE
  | CENTRE_BOTTOM
  | LEFT_TOP
  | LEFT_MIDDLE
  | LEFT_BOTTOM
  | RIGHT_TOP
  | RIGHT_MIDDLE
  | RIGHT_BOTTOM
deriving DecidableEq, Repr

/-- Enumeration `KEYS`, with the enumerator the source names and one other. -/
inductive KEYS
  | MOUSE_BUTTON_LEFT
  | MOUSE_BUTTON_RIGHT
deriving DecidableEq, Repr

/-- What `GUIManager::Update` asks of the input manager behind `mInputManager`:
the mouse position and, for a key, whether it is down and whether it is held. -/
structure InputManager (F : Type) where
  MousePos : Vector2 F
  KeyDown : KEYS → Bool
  KeyHeld : KEYS → Bool

/-- The members the sprite, text and button functions use: `mDeviceWidth` and
`mDeviceHeight` (set from `int` arguments by `InitialiseGUI`), the fonts by
file name, `mTexts`, and `mSprites` and `mButtons` of the resource manager. -/
structure GUIOverlay (F : Type) where
  mDeviceWidth : Int
  mDeviceHeight : Int
  mFonts : List String
  mTexts : List (Text F)
  mSprites : List (String × Sprite F)
  mButtons : List (String × Button F)
deriving DecidableEq, Repr

/-- What the GUI functions take from outside the sources: float arithmetic and
comparison, `int` to `float` conversion (also the literal `2.0f`), the float
value of a sprite dimension divided by an `int` literal (`mWidth / 3`, whose
type the sources do not show), the values of the default-constructed locals
`Vector2 position`, `Sprite sprite`, `Text text` and `Button button`, the
texture a file holds (`none` when `CreateWICTextureFromFile` finds no file and
leaves the pointer null), and `SpriteFont::MeasureString` by font and text. -/
structure GuiEnv (F : Type) where
  ofInt : Int → F
  add : F → F → F
  sub : F → F → F
  div : F → F → F
  lt : F → F → Bool
  quot : Nat → Nat → F
  vector2Default : Vector2 F
  spriteDefault : Sprite F
  textDefault : Text F
  buttonDefault : Button F
  texture : String → Option D3D11_TEXTURE2D_DESC
  measureString : String → String → XMFLOAT2 F

/-- Conversion `DirectX::XMFLOAT4(v.X, v.Y, v.Z, v.W)`. -/
def Vector4.toXMFLOAT4 {F : Type} (v : Vector4 F) : XMFLOAT4 F :=
  { x := v.X, y := v.Y, z := v.Z, w := v.W }

/-- An assignment through `v.back()`: the last element is replaced. -/
def updateBack {α : Type} (f : α → α) : List α → List α
  | [] => []
  | [a] => [f a]
  | a :: b :: t => a :: updateBack f (b :: t)

/-- The pointer `&v.back()` as the index of the last element; `none` is the
null pointer. -/
def backPointer {α : Type} (v : List α) : Option Nat :=
  some (v.length - 1)

/-- How a call of `GUIManager::Update` ends: it returns; or an exception leaves
it, the function having no handler; or its behaviour is undefined.  With it go
the GUI at that moment and the on-click functions called up to then, in order,
the one that did not return included. -/
inductive UpdateResult (F : Type)
  | returned (g : GUIOverlay F) (called : List OnClick)
  | threw (g : GUIOverlay F) (called : List OnClick)
  | undefined
deriving DecidableEq, Repr

/-- What the call `mOnClickFunction()` does, by function and by the GUI at the
call: `none` when an exception leaves the call (`std::bad_function_call` for an
empty `std::function`, or whatever the function throws), else the GUI as the
function leaves it when it returns. -/
abbrev Invoke (F : Type) := OnClick → GUIOverlay F → Option (GUIOverlay F)

/-- Function `GUIManager::Update`, the loop `for (auto& mButton : mButtons)`
with `n` elements still to visit and the iterator at index `it`.  The iterators
of the loop stay valid only while the vector keeps its size: an on-click
function that returns with another number of buttons leaves the behaviour
undefined.  The answers of the input manager are taken not to change during the
call. -/
def GUIOverlay.UpdateLoop {F : Type} (env : GuiEnv F) (invoke : Invoke F)
    (mInputManager : InputManager F) (mousePos : Vector2 F) :
    Nat → Nat → GUIOverlay F → List OnClick → UpdateResult F
  | 0, _, g, called => .returned g called
  | n + 1, it, g, called =>
    match g.mButtons[it]? with
    | none => .returned g called
    | some mButton =>
      let buttonBounds := mButton.2.mSprite.mPosition
      let buttonWidth := mButton.2.mSprite.mWidth
      let buttonHeight := mButton.2.mSprite.mHeight
      -- check if mouse is in bounds
      if env.lt (env.sub buttonBounds.x (env.quot buttonWidth 3)) mousePos.X &&
          env.lt mousePos.X (env.add buttonBounds.x (env.quot buttonWidth 3)) &&
          env.lt (env.sub buttonBounds.y (env.quot buttonHeight 25)) mousePos.Y &&
          env.lt mousePos.Y (env.add buttonBounds.y (env.quot buttonHeight 25)) then
        -- if mouse clicked, trigger onclick function
        if mInputManager.KeyDown .MOUSE_BUTTON_LEFT ||
            mInputManager.KeyHeld .MOUSE_BUTTON_LEFT then
          match invoke mButton.2.mOnClickFunction g with
          | none => .threw g (called ++ [mButton.2.mOnClickFunction])
          | some g2 =>
            if g2.mButtons.length = g.mButtons.length then
              GUIOverlay.UpdateLoop env invoke mInputManager mousePos n (it + 1) g2
                (called ++ [mButton.2.mOnClickFunction])
            else .undefined
        else
          -- trigger on hover - colour change
          let buttonTextHoverColour : XMFLOAT4 F :=
            { x := mButton.2.mTextColourHover.X, y := mButton.2.mTextColourHover.Y
              z := mButton.2.mTextColourHover.Z, w := mButton.2.mTextColourHover.W }
          GUIOverlay.UpdateLoop env invoke mInputManager mousePos n (it + 1)
            { g with
              mButtons := g.mButtons.set it
                (mButton.1,
                  { mButton.2 with
                    mText := { mButton.2.mText with mColour := buttonTextHoverColour } }) }
            called
      else
        -- return to original text colour
        let buttonTextOriginalColour : XMFLOAT4 F :=
          { x := mButton.2.mTextColourOriginal.X, y := mButton.2.mTextColourOriginal.Y
            z := mButton.2.mTextColourOriginal.Z, w := mButton.2.mTextColourOriginal.W }
        GUIOverlay.UpdateLoop env invoke mInputManager mousePos n (it + 1)
          { g with
            mButtons := g.mButtons.set it
              (mButton.1,
                { mButton.2 with
                  mText := { mButton.2.mText with mColour := buttonTextOriginalColour } }) }
          called

/-- Function `GUIManager::Update`: the mouse position is read once, then the
loop visits the buttons from the first. -/
def GUIOverlay.Update {F : Type} (env : GuiEnv F) (invoke : Invoke F)
    (mInputManager : InputManager F) (g : GUIOverlay F) : UpdateResult F :=
  let mousePos := mInputManager.MousePos
  GUIOverlay.UpdateLoop env invoke mInputManager mousePos g.mButtons.length 0 g []

/-- Function `GUIManager::LoadFont`.  The font file is taken to load. -/
def GUIOverlay.LoadFont {F : Type} (pFontName : String) (g : GUIOverlay F) : GUIOverlay F :=
  { g with mFonts := g.mFonts ++ [pFontName] }

/-- The lines every `LoadSprite` overload shares, from
`CreateWICTextureFromFile` to the assignment of `mHeight`, all through
`mSprites.back()`.  When the file is not found the texture pointer stays null
and `mTexture.Get()->GetResource` dereferences it: undefined behaviour, the
value `none`.  Otherwise the value is the description read and the sprites. -/
def GUIOverlay.loadBackTexture {F : Type} (env : GuiEnv F) (pFileName : String)
    (g : GUIOverlay F) : Option (D3D11_TEXTURE2D_DESC × GUIOverlay F) :=
  let g := { g with
    mSprites := updateBack (fun s => (s.1, { s.2 with mTexture := env.texture pFileName }))
      g.mSprites }
  match env.texture pFileName with
  | none => none
  | some desc =>
    let g := { g with
      mSprites := updateBack (fun s => (s.1, { s.2 with mWidth := desc.Width })) g.mSprites }
    let g := { g with
      mSprites := updateBack (fun s => (s.1, { s.2 with mHeight := desc.Height })) g.mSprites }
    some (desc, g)

/-- Function `GUIManager::LoadSprite`, the overload with a `Vector2` origin and
a `Vector2` position. -/
def GUIOverlay.LoadSprite_V2_V2 {F : Type} (env : GuiEnv F) (pFileName : String)
    (pOrigin pPosition pPadding : Vector2 F) (pRotation pScale : F) (pIsVisible : Bool)
    (g : GUIOverlay F) : Option (GUIOverlay F) :=
  let sprite := env.spriteDefault
  let sprite := { sprite with mOrigin := { x := pOrigin.X, y := pOrigin.Y } }
  let sprite := { sprite with
    mPosition := { x := env.add pPosition.X pPadding.X, y := env.add pPosition.Y pPadding.Y } }
  let sprite := { sprite with mRotation := pRotation }
  let sprite := { sprite with mScale := pScale }
  let sprite := { sprite with mIsVisible := pIsVisible }
  let g := { g with mSprites := g.mSprites ++ [(pFileName, sprite)] }
  match g.loadBackTexture env pFileName with
  | none => none
  | some (_, g) => some g

/-- Function `GUIManager::LoadSprite`, the overload with a `Vector2` origin and
a `SpritePosition`. -/
def GUIOverlay.LoadSprite_V2_Pos {F : Type} (env : GuiEnv F) (pFileName : String)
    (pOrigin : Vector2 F) (pPosition : SpritePosition) (pPadding : Vector2 F)
    (pRotation pScale : F) (pIsVisible : Bool) (g : GUIOverlay F) : Option (GUIOverlay F) :=
  let position := env.vector2Default
  let position :=
    match pPosition with
    | .CENTRE_TOP =>
      let position := { position with
        X := env.add (env.div (env.ofInt g.mDeviceWidth) (env.ofInt 2)) pPadding.X }
      { position with Y := env.add (env.ofInt 0) pPadding.Y }
    | .CENTRE_MIDDLE =>
      let position := { position with
        X := env.add (env.div (env.ofInt g.mDeviceWidth) (env.ofInt 2)) pPadding.X }
      { position with
        Y := env.add (env.div (env.ofInt g.mDeviceHeight) (env.ofInt 2)) pPadding.Y }
    | .CENTRE_BOTTOM =>
      let position := { position with
        X := env.add (env.div (env.ofInt g.mDeviceWidth) (env.ofInt 2)) pPadding.X }
      { position with Y := env.add (env.ofInt g.mDeviceHeight) pPadding.Y }
  g.LoadSprite_V2_V2 env pFileName pOrigin position pPadding pRotation pScale pIsVisible

/-- Function `GUIManager::LoadSprite`, the overload with a `SpriteOrigin` and a
`Vector2` position.  The second component of the value is the `Sprite*`. -/
def GUIOverlay.LoadSprite_Origin_V2 {F : Type} (env : GuiEnv F) (pFileName : String)
    (pOrigin : SpriteOrigin) (pPosition pPadding : Vector2 F) (pRotation pScale : F)
    (pIsVisible : Bool) (g : GUIOverlay F) : Option (GUIOverlay F × Option Nat) :=
  let sprite := env.spriteDefault
  let sprite := { sprite with mOrigin := { x := env.ofInt 0, y := env.ofInt 0 } }
  let sprite := { sprite with
    mPosition := { x := env.add pPosition.X pPadding.X, y := env.add pPosition.Y pPadding.Y } }
  let sprite := { sprite with mRotation := pRotation }
  let sprite := { sprite with mScale := pScale }
  let sprite := { sprite with mIsVisible := pIsVisible }
  let g := { g with mSprites := g.mSprites ++ [(pFileName, sprite)] }
  match g.loadBackTexture env pFileName with
  | none => none
  | some (desc, g) =>
    let origin := env.vector2Default
    let origin :=
      match pOrigin with
      | .CENTRE =>
        let origin := { origin with X := env.ofInt (desc.Width / 2 : Nat) }
        { origin with Y := env.ofInt (desc.Height / 2 : Nat) }
    let g := { g with
      mSprites := updateBack (fun s => (s.1, { s.2 with mOrigin := { x := origin.X, y := origin.Y } }))
        g.mSprites }
    some (g, backPointer g.mSprites)

/-- Function `GUIManager::LoadSprite`, the overload with a `SpriteOrigin` and a
`SpritePosition`.  The second component of the value is the `Sprite*`. -/
def GUIOverlay.LoadSprite_Origin_Pos {F : Type} (env : GuiEnv F) (pFileName : String)
    (pOrigin : SpriteOrigin) (pPosition : SpritePosition) (pPadding : Vector2 F)
    (pRotation pScale : F) (pIsVisible : Bool) (g : GUIOverlay F) :
    Option (GUIOverlay F × Option Nat) :=
  let sprite := env.spriteDefault
  let sprite := { sprite with mRotation := pRotation }
  let sprite := { sprite with mScale := pScale }
  let sprite := { sprite with mIsVisible := pIsVisible }
  let g := { g with mSprites := g.mSprites ++ [(pFileName, sprite)] }
  match g.loadBackTexture env pFileName with
  | none => none
  | some (desc, g) =>
    let origin := env.vector2Default
    let origin :=
      match pOrigin with
      | .CENTRE =>
        let origin := { origin with X := env.ofInt (desc.Width / 2 : Nat) }
        { origin with Y := env.ofInt (desc.Height / 2 : Nat) }
    let g := { g with
      mSprites := updateBack (fun s => (s.1, { s.2 with mOrigin := { x := origin.X, y := origin.Y } }))
        g.mSprites }
    let position := env.vector2Default
    let position :=
      match pPosition with
      | .CENTRE_TOP =>
        let position := { position with
          X := env.add (env.div (env.ofInt g.mDeviceWidth) (env.ofInt 2)) pPadding.X }
        { position with Y := env.add (env.ofInt 0) pPadding.Y }
      | .CENTRE_MIDDLE =>
        let position := { position with
          X := env.add (env.div (env.ofInt g.mDeviceWidth) (env.ofInt 2)) pPadding.X }
        { position with
          Y := env.add (env.div (env.ofInt g.mDeviceHeight) (env.ofInt 2)) pPadding.Y }
      | .CENTRE_BOTTOM =>
        let position := { position with
          X := env.add (env.div (env.ofInt g.mDeviceWidth) (env.ofInt 2)) pPadding.X }
        { position with Y := env.add (env.ofInt g.mDeviceHeight) pPadding.Y }
    let g := { g with
      mSprites :=
        updateBack (fun s => (s.1, { s.2 with mPosition := { x := position.X, y := position.Y } }))
          g.mSprites }
    some (g, backPointer g.mSprites)

/-- Function `GUIManager::CreateButton`.  The second component of the value is
the `Button*`; the value is `none` when the texture pointer is null at
`sprite.mTexture->GetResource`. -/
def GUIOverlay.CreateButton {F : Type} (env : GuiEnv F) (pFileName pFontName pText : String)
    (pRotation pButtonScale pTextScale : F) (pOrigin : ButtonOrigin) (pPosition : ButtonPosition)
    (pButtonPadding pTextPadding : Vector2 F) (pTextColour pTextColourHover : Vector4 F)
    (pOnClickFunction : OnClick) (pIsVisible : Bool) (g : GUIOverlay F) :
    Option (GUIOverlay F × Option Nat) :=
  -- Create initial button
  let button := env.buttonDefault
  let button := { button with mOnClickFunction := pOnClickFunction }
  let button := { button with mTextColourHover := pTextColourHover }
  let button := { button with mTextColourOriginal := pTextColour }
  let button := { button with mIsVisible := pIsVisible }
  -- Create Initial Sprite
  let sprite := env.spriteDefault
  let sprite := { sprite with mRotation := pRotation }
  let sprite := { sprite with mScale := pButtonScale }
  let sprite := { sprite with mIsVisible := pIsVisible }
  -- load an image from file and initialise sprites texture
  let sprite := { sprite with mTexture := env.texture pFileName }
  -- Get resource from texture
  match sprite.mTexture with
  | none => none
  | some desc =>
    -- calculate width and height from resource
    let sprite := { sprite with mHeight := desc.Width }
    let sprite := { sprite with mWidth := desc.Height }
    -- calculate origin using enum and from resource
    let sprite :=
      match pOrigin with
      | .CENTRE =>
        let sprite := { sprite with
          mOrigin := { sprite.mOrigin with x := env.ofInt (desc.Width / 2 : Nat) } }
        { sprite with mOrigin := { sprite.mOrigin with y := env.ofInt (desc.Height / 2 : Nat) } }
    let sprite :=
      match pPosition with
      | .CENTRE_TOP =>
        let sprite := { sprite with
          mPosition := { sprite.mPosition with
            x := env.add (env.div (env.ofInt g.mDeviceWidth) (env.ofInt 2)) pButtonPadding.X } }
        { sprite with
          mPosition := { sprite.mPosition with y := env.add (env.ofInt 0) pButtonPadding.Y } }
      | .CENTRE_MIDDLE =>
        let sprite := { sprite with
          mPosition := { sprite.mPosition with
            x := env.add (env.div (env.ofInt g.mDeviceWidth) (env.ofInt 2)) pButtonPadding.X } }
        { sprite with
          mPosition := { sprite.mPosition with
            y := env.add (env.div (env.ofInt g.mDeviceHeight) (env.ofInt 2)) pButtonPadding.Y } }
      | .CENTRE_BOTTOM =>
        let sprite := { sprite with
          mPosition := { sprite.mPosition with
            x := env.add (env.div (env.ofInt g.mDeviceWidth) (env.ofInt 2)) pButtonPadding.X } }
        { sprite with
          mPosition := { sprite.mPosition with
            y := env.add (env.ofInt g.mDeviceHeight) pButtonPadding.Y } }
    -- Button Text
    let text := env.textDefault
    let text := { text with mRotation := pRotation }
    let text := { text with mScale := pTextScale }
    let text := { text with mText := pText }
    let text := { text with mIsVisible := pIsVisible }
    let g := g.LoadFont pFontName
    let text := { text with mColour := pTextColour.toXMFLOAT4 }
    -- origin
    let textSize := env.measureString (g.mFonts.headD pFontName) text.mText
    let text :=
      match pOrigin with
      | .CENTRE =>
        let text := { text with
          mOrigin := { text.mOrigin with x := env.div textSize.x (env.ofInt 2) } }
        { text with mOrigin := { text.mOrigin with y := env.div textSize.y (env.ofInt 2) } }
    let text := { text with
      mPosition :=
        { x := env.add sprite.mPosition.x pTextPadding.X
          y := env.add sprite.mPosition.y pTextPadding.Y } }
    let button := { button with mSprite := sprite }
    let button := { button with mText := text }
    let g := { g with mButtons := g.mButtons ++ [(pFileName, button)] }
    some (g, backPointer g.mButtons)

/-- Function `GUIManager::Write`, the overload with a `Vector2` origin and a
`Vector2` position.  The first component of the value is the `Text*`. -/
def GUIOverlay.Write_V2_V2 {F : Type} (env : GuiEnv F) (pText : String)
    (pOrigin pPosition pPadding : Vector2 F) (pFontName : String) (pRotation pScale : F)
    (pColour : Vector4 F) (pIsVisible : Bool) (g : GUIOverlay F) : Option Nat × GUIOverlay F :=
  let g := g.LoadFont pFontName
  let text := env.textDefault
  let text := { text with mText := pText }
  let text := { text with
    mPosition := { x := env.add pPosition.X pPadding.X, y := env.add pPosition.Y pPadding.Y } }
  let text := { text with mOrigin := { x := pOrigin.X, y := pOrigin.Y } }
  let text := { text with mScale := pScale }
  let text := { text with mRotation := pRotation }
  let text := { text with mColour := pColour.toXMFLOAT4 }
  let text := { text with mIsVisible := pIsVisible }
  let g := { g with mTexts := g.mTexts ++ [text] }
  (backPointer g.mTexts, g)

/-- Function `GUIManager::Write`, the overload with a `Vector2` origin and a
`TextPosition`.  It ends with `return 0;`. -/
def GUIOverlay.Write_V2_Pos {F : Type} (env : GuiEnv F) (pText : String)
    (pOrigin : Vector2 F) (pPosition : TextPosition) (pPadding : Vector2 F) (pFontName : String)
    (pRotation pScale : F) (pColour : Vector4 F) (pIsVisible : Bool) (g : GUIOverlay F) :
    Option Nat × GUIOverlay F :=
  let position := env.vector2Default
  let position :=
    match pPosition with
    | .CENTRE_TOP =>
      let position := { position with
        X := env.add (env.div (env.ofInt g.mDeviceWidth) (env.ofInt 2)) pPadding.X }
      { position with Y := env.add (env.ofInt 0) pPadding.Y }
    | .CENTRE_MIDDLE =>
      let position := { position with
        X := env.add (env.div (env.ofInt g.mDeviceWidth) (env.ofInt 2)) pPadding.X }
      { position with
        Y := env.add (env.div (env.ofInt g.mDeviceHeight) (env.ofInt 2)) pPadding.Y }
    | .CENTRE_BOTTOM =>
      let position := { position with
        X := env.add (env.div (env.ofInt g.mDeviceWidth) (env.ofInt 2)) pPadding.X }
      { position with Y := env.add (env.ofInt g.mDeviceHeight) pPadding.Y }
    | .LEFT_BOTTOM =>
      let position := { position with X := env.add (env.ofInt 0) pPadding.X }
      { position with Y := env.add (env.ofInt g.mDeviceHeight) pPadding.Y }
    | _ => position
  let written :=
    g.Write_V2_V2 env pText pOrigin position pPadding pFontName pRotation pScale pColour pIsVisible
  (none, written.2)

/-- Function `GUIManager::Write`, the overload with a `TextOrigin` and a
`Vector2` position. -/
def GUIOverlay.Write_Origin_V2 {F : Type} (env : GuiEnv F) (pText : String)
    (pOrigin : TextOrigin) (pPosition pPadding : Vector2 F) (pFontName : String)
    (pRotation pScale : F) (pColour : Vector4 F) (pIsVisible : Bool) (g : GUIOverlay F) :
    Option Nat × GUIOverlay F :=
  let g := g.LoadFont pFontName
  let text := env.textDefault
  let text := { text with mText := pText }
  let text := { text with
    mPosition := { x := env.add pPosition.X pPadding.X, y := env.add pPosition.Y pPadding.Y } }
  let text := { text with mScale := pScale }
  let text := { text with mRotation := pRotation }
  let text := { text with mColour := pColour.toXMFLOAT4 }
  let text := { text with mIsVisible := pIsVisible }
  let textSize := env.measureString (g.mFonts.headD pFontName) pText
  let text :=
    match pOrigin with
    | .CENTRE =>
      let text := { text with
        mOrigin := { text.mOrigin with x := env.div textSize.x (env.ofInt 2) } }
      { text with mOrigin := { text.mOrigin with y := env.div textSize.y (env.ofInt 2) } }
  let g := { g with mTexts := g.mTexts ++ [text] }
  (backPointer g.mTexts, g)

/-- Function `GUIManager::Write`, the overload with a `TextOrigin` and a
`TextPosition`. -/
def GUIOverlay.Write_Origin_Pos {F : Type} (env : GuiEnv F) (pText : String)
    (pOrigin : TextOrigin) (pPosition : TextPosition) (pPadding : Vector2 F)
    (pFontName : String) (pRotation pScale : F) (pColour : Vector4 F) (pIsVisible : Bool)
    (g : GUIOverlay F) : Option Nat × GUIOverlay F :=
  let g := g.LoadFont pFontName
  let text := env.textDefault
  let text := { text with mText := pText }
  let text := { text with mScale := pScale }
  let text := { text with mRotation := pRotation }
  let text := { text with mColour := pColour.toXMFLOAT4 }
  let text := { text with mIsVisible := pIsVisible }
  let text :=
    match pPosition with
    | .CENTRE_TOP =>
      let text := { text with
        mPosition := { text.mPosition with
          x := env.add (env.div (env.ofInt g.mDeviceWidth) (env.ofInt 2)) pPadding.X } }
      { text with mPosition := { text.mPosition with y := env.add (env.ofInt 0) pPadding.Y } }
    | .CENTRE_MIDDLE =>
      let text := { text with
        mPosition := { text.mPosition with
          x := env.add (env.div (env.ofInt g.mDeviceWidth) (env.ofInt 2)) pPadding.X } }
      { text with
        mPosition := { text.mPosition with
          y := env.add (env.div (env.ofInt g.mDeviceHeight) (env.ofInt 2)) pPadding.Y } }
    | .CENTRE_BOTTOM =>
      let text := { text with
        mPosition := { text.mPosition with
          x := env.add (env.div (env.ofInt g.mDeviceWidth) (env.ofInt 2)) pPadding.X } }
      { text with
        mPosition := { text.mPosition with y := env.add (env.ofInt g.mDeviceHeight) pPadding.Y } }
    | .LEFT_BOTTOM =>
      let text := { text with
        mPosition := { text.mPosition with x := env.add (env.ofInt 0) pPadding.X } }
      { text with
        mPosition := { text.mPosition with y := env.add (env.ofInt g.mDeviceHeight) pPadding.Y } }
    | _ => text
  -- origin
  let textSize := env.measureString (g.mFonts.headD pFontName) pText
  let text :=
    match pOrigin with
    | .CENTRE =>
      let text := { text with
        mOrigin := { text.mOrigin with x := env.div textSize.x (env.ofInt 2) } }
      { text with mOrigin := { text.mOrigin with y := env.div textSize.y (env.ofInt 2) } }
  let g := { g with mTexts := g.mTexts ++ [text] }
  (backPointer g.mTexts, g)

/-! ## The claims' words for the GUI functions -/

/-- The bounds test as the specification words it: the mouse is strictly inside
the button when its `X` is strictly between `pos.x - mWidth / 3` and
`pos.x + mWidth / 3` and its `Y` strictly between `pos.y - mHeight / 25` and
`pos.y + mHeight / 25`. -/
def mouseInside {F : Type} (env : GuiEnv F) (mouse : Vector2 F) (b : Button F) : Bool :=
  (env.lt (env.sub b.mSprite.mPosition.x (env.quot b.mSprite.mWidth 3)) mouse.X &&
    env.lt mouse.X (env.add b.mSprite.mPosition.x (env.quot b.mSprite.mWidth 3))) &&
  (env.lt (env.sub b.mSprite.mPosition.y (env.quot b.mSprite.mHeight 25)) mouse.Y &&
    env.lt mouse.Y (env.add b.mSprite.mPosition.y (env.quot b.mSprite.mHeight 25)))

/-- Whether the left mouse button is down or held. -/
def leftPressed {F : Type} (input : InputManager F) : Bool :=
  input.KeyDown .MOUSE_BUTTON_LEFT || input.KeyHeld .MOUSE_BUTTON_LEFT

/-- The three outcomes the specification gives for one button: clicked, it is
left as it is; hovered, its text takes the hover colour; otherwise its text
takes the original colour. -/
def buttonOutcome {F : Type} (env : GuiEnv F) (input : InputManager F) (b : Button F) :
    Button F :=
  if mouseInside env input.MousePos b then
    if leftPressed input then b
    else { b with mText := { b.mText with mColour := b.mTextColourHover.toXMFLOAT4 } }
  else { b with mText := { b.mText with mColour := b.mTextColourOriginal.toXMFLOAT4 } }

/-- The anchor of a text position, for the four positions the code handles:
`(W/2, 0)`, `(W/2, H/2)`, `(W/2, H)` and `(0, H)`. -/
def TextPosition.anchor {F : Type} (env : GuiEnv F) (W H : Int) : TextPosition → Option (Vector2 F)
  | .CENTRE_TOP => some { X := env.div (env.ofInt W) (env.ofInt 2), Y := env.ofInt 0 }
  | .CENTRE_MIDDLE =>
    some { X := env.div (env.ofInt W) (env.ofInt 2), Y := env.div (env.ofInt H) (env.ofInt 2) }
  | .CENTRE_BOTTOM => some { X := env.div (env.ofInt W) (env.ofInt 2), Y := env.ofInt H }
  | .LEFT_BOTTOM => some { X := env.ofInt 0, Y := env.ofInt H }
  | _ => none

/-- The anchor of a sprite position: `(W/2, 0)`, `(W/2, H/2)` or `(W/2, H)`. -/
def SpritePosition.anchor {F : Type} (env : GuiEnv F) (W H : Int) : SpritePosition → Vector2 F
  | .CENTRE_TOP => { X := env.div (env.ofInt W) (env.ofInt 2), Y := env.ofInt 0 }
  | .CENTRE_MIDDLE =>
    { X := env.div (env.ofInt W) (env.ofInt 2), Y := env.div (env.ofInt H) (env.ofInt 2) }
  | .CENTRE_BOTTOM => { X := env.div (env.ofInt W) (env.ofInt 2), Y := env.ofInt H }

/-- The Transform the specification expects a spawner to pass: translation,
scale and rotation from `pPosition`, `pScale` and `pRotation`, every other
member as default-constructed; for `SpawnSkyBox` scale `(1,1,1,1)`, translation
`(0,0,0,1)` and the default rotation. -/
def SpawnCall.expectedTransform {F : Type} (env : Env F) : SpawnCall F → Transform F
  | .SpawnLaser p s r _ _ _ _ _ _ _ _ | .SpawnShip p s r _ _ _ _ _ _
  | .SpawnAsteroid p s r _ _ _ _ _ | .SpawnLaserGun p s r _ _ _
  | .SpawnCamera p s r _ _ _ _ | .SpawnPlayer p s r _ _ _ _ _ _ _ _
  | .SpawnEngine p s r _ _ _ | .SpawnPlanetSurface p s r _ _ | .SpawnSun p s r =>
    { env.transformDefault with mTranslation := p, mScale := s, mRotation := r }
  | .SpawnSkyBox =>
    { env.transformDefault with
      mTranslation := env.vector4 0 0 0 1, mScale := env.vector4 1 1 1 1 }

/-- The Transform of a call and the entity it is added to, when the call is
`AddTransformComp`. -/
def Call.transform? {F : Type} : Call F → Option (Transform F × Int)
  | .addComp (.transform t) id => some (t, id)
  | _ => none

/-! ## Concrete inputs for the GUI functions -/

/-- An environment in which integers stand for floats, with exact arithmetic
and integer division; the one texture file is 600 wide and 100 high. -/
def demoGuiEnv : GuiEnv Int :=
  { ofInt := fun n => n
    add := fun a b => a + b
    sub := fun a b => a - b
    div := fun a b => a / b
    lt := fun a b => decide (a < b)
    quot := fun m k => ((m / k : Nat) : Int)
    vector2Default := { X := 0, Y := 0 }
    spriteDefault :=
      { mTexture := none, mOrigin := { x := 0, y := 0 }, mPosition := { x := 0, y := 0 }
        mRotation := 0, mScale := 0, mIsVisible := false, mWidth := 0, mHeight := 0 }
    textDefault :=
      { mText := "", mPosition := { x := 0, y := 0 }, mOrigin := { x := 0, y := 0 }
        mScale := 0, mRotation := 0, mColour := { x := 0, y := 0, z := 0, w := 0 }
        mIsVisible := false }
    buttonDefault :=
      { mSprite :=
          { mTexture := none, mOrigin := { x := 0, y := 0 }, mPosition := { x := 0, y := 0 }
            mRotation := 0, mScale := 0, mIsVisible := false, mWidth := 0, mHeight := 0 }
        mText :=
          { mText := "", mPosition := { x := 0, y := 0 }, mOrigin := { x := 0, y := 0 }
            mScale := 0, mRotation := 0, mColour := { x := 0, y := 0, z := 0, w := 0 }
            mIsVisible := false }
        mTextColourHover := { X := 0, Y := 0, Z := 0, W := 0 }
        mTextColourOriginal := { X := 0, Y := 0, Z := 0, W := 0 }
        mOnClickFunction := 0, mIsVisible := false }
    texture := fun f => if f = "button.png" then some { Width := 600, Height := 100 } else none
    measureString := fun _ _ => { x := 80, y := 20 } }

/-- A GUI for a device 800 wide and 600 high, with nothing loaded. -/
def demoOverlay : GUIOverlay Int :=
  { mDeviceWidth := 800, mDeviceHeight := 600, mFonts := [], mTexts := [], mSprites := []
    mButtons := [] }

/-- A button 90 wide and 100 high at a position, with white as its original
text colour, red as its hover colour, a text colour, and an on-click function. -/
def demoButton (x y : Int) (colour : XMFLOAT4 Int) (f : OnClick) : Button Int :=
  { demoGuiEnv.buttonDefault with
    mSprite := { demoGuiEnv.spriteDefault with
      mPosition := { x := x, y := y }, mWidth := 90, mHeight := 100 }
    mText := { demoGuiEnv.textDefault with mColour := colour }
    mTextColourHover := { X := 1, Y := 0, Z := 0, W := 1 }
    mTextColourOriginal := { X := 1, Y := 1, Z := 1, W := 1 }
    mOnClickFunction := f }

/-- The mouse at `(105, 51)` with the left button held. -/
def demoInput : InputManager Int :=
  { MousePos := { X := 105, Y := 51 }
    KeyDown := fun _ => false
    KeyHeld := fun k => decide (k = KEYS.MOUSE_BUTTON_LEFT) }

/-- On-click functions: number 0 is an empty `std::function`, number 9 unloads
the menu and with it every button, every other one returns and leaves the GUI
as it is. -/
def demoInvoke : Invoke Int := fun f g =>
  if f = 0 then none
  else if f = 9 then some { g with mButtons := [] }
  else some g

/-- A process before any `Instance()` call in which three objects have been
allocated already: the next address is 3. -/
def earlyWorld : World Int :=
  { startWorld with nextHandle := 3 }

/-! # Theorems -/

/-! ## The spawners -/

/-- What a spawner call does to the process: it returns the identifier that
`CreateEntity` handed out, the manager behind its handle receives `CreateEntity`
and then one `AddXComp` per kind of the archetype, all on that identifier, whose
signature becomes the archetype; nothing else changes. -/
theorem SpawnCall.run_spec {F : Type} (env : Env F) (h : Handle) (c : SpawnCall F)
    (w : World F) :
    (c.run env h w).1 = env.alloc (w.ecs h) ∧
    ((c.run env h w).2.ecs h).calls.map Call.shape =
      (w.ecs h).calls.map Call.shape ++
        CallShape.createEntity (env.alloc (w.ecs h)) ::
          (archetype c.spawner).map (CallShape.addComp · (env.alloc (w.ecs h))) ∧
    ((c.run env h w).2.ecs h).signatures =
      Function.update (w.ecs h).signatures (env.alloc (w.ecs h)) (archetype c.spawner).toFinset ∧
    ((c.run env h w).2.ecs h).duplicateAdds = (w.ecs h).duplicateAdds ∧
    ((c.run env h w).2.ecs h).updateSystems = (w.ecs h).updateSystems ∧
    ((c.run env h w).2.ecs h).renderSystem = (w.ecs h).renderSystem ∧
    (∀ h2, h2 ≠ h → (c.run env h w).2.ecs h2 = w.ecs h2) ∧
    (c.run env h w).2.ecsInstance = w.ecsInstance ∧
    (c.run env h w).2.guiInstance = w.guiInstance ∧
    (c.run env h w).2.gui = w.gui ∧
    (c.run env h w).2.nextHandle = w.nextHandle ∧
    (c.run env h w).2.tw = w.tw := by
  cases c <;>
  simp [SpawnCall.run, SpawnCall.spawner, archetype, EntitySpawner.SpawnLaser,
    EntitySpawner.SpawnShip, EntitySpawner.SpawnAsteroid, EntitySpawner.SpawnLaserGun,
    EntitySpawner.SpawnCamera, EntitySpawner.SpawnPlayer, EntitySpawner.SpawnEngine,
    EntitySpawner.SpawnPlanetSurface, EntitySpawner.SpawnSun, EntitySpawner.SpawnSkyBox,
    World.ecsCall, World.ecsCallRet, ECSManager.CreateEntity, ECSManager.addComp,
    ECSManager.AddGeometryComp, ECSManager.AddShaderComp, ECSManager.AddPointLightComp,
    ECSManager.AddTransformComp, ECSManager.AddAudioComp, ECSManager.AddTextureComp,
    ECSManager.AddVelocityComp, ECSManager.AddColourComp, ECSManager.AddSphereColliderComp,
    ECSManager.AddBoxColliderComp, ECSManager.AddCameraComp, ECSManager.AddGravityComp,
    Component.kind, Call.shape]
  all_goals
    refine ⟨congrArg _ ?_, fun h2 hne => Function.update_noteq hne _ _⟩
    decide

/-- No archetype lists a kind twice. -/
theorem archetype_nodup (s : Spawner) : (archetype s).Nodup := by
  cases s <;> decide

/-- An archetype holds Geometry, Shader and Transform together, or neither
Geometry nor Shader. -/
theorem archetype_renderable (s : Spawner) :
    ({.Geometry, .Shader, .Transform} ⊆ (archetype s).toFinset) ∨
    (ComponentKind.Geometry ∉ (archetype s).toFinset ∧
      ComponentKind.Shader ∉ (archetype s).toFinset) := by
  cases s <;> decide

/-- C1: for every argument list, `SpawnLaser` returns the identifier that its
one `CreateEntity` call returned, and the calls it issues are that
`CreateEntity` followed by exactly nine `AddXComp` calls on that identifier, one
of each of the kinds Geometry, Shader, PointLight, Transform, Audio, Texture,
Velocity, Colour and SphereCollider, with the data shown, and no other. -/
theorem SpawnLaser_creates_once_then_adds_nine {F : Type} (env : Env F) (h : Handle)
    (pPosition pScale pRotation pColour pAcceleration : Vector4 F) (pMaxSpeed pRadius : F)
    (pCollisionMask pIgnoreCollisionMask : Int) (pLightRange : F) (pSound : String)
    (w : World F) :
    ∃ comps : List (Component F),
      (EntitySpawner.SpawnLaser env h pPosition pScale pRotation pColour pAcceleration pMaxSpeed
        pRadius pCollisionMask pIgnoreCollisionMask pLightRange pSound w).1
        = (ECSManager.CreateEntity env.alloc (w.ecs h)).1 ∧
      ((EntitySpawner.SpawnLaser env h pPosition pScale pRotation pColour pAcceleration pMaxSpeed
        pRadius pCollisionMask pIgnoreCollisionMask pLightRange pSound w).2.ecs h).calls
        = (w.ecs h).calls ++
            Call.createEntity (ECSManager.CreateEntity env.alloc (w.ecs h)).1 ::
              comps.map (Call.addComp · (ECSManager.CreateEntity env.alloc (w.ecs h)).1) ∧
      comps =
        [ .geometry { filename := "sphere.obj" },
          .shader
            { filename := "defaultShader.fx", blendState := .NOBLEND, cullState := .BACK
              depthState := .LESSEQUAL, renderTargets := [], flag := true },
          .pointLight { colour := pColour, range := pLightRange },
          .transform
            { env.transformDefault with
              mScale := pScale, mRotation := pRotation, mTranslation := pPosition },
          .audio
            { filename := pSound, active := true, loop := false, volume := env.lit (1 / 2)
              pitch := env.lit 1, pan := env.lit 0 },
          .texture { diffuse := "stones.dds", normal := "stones_NM_height.dds", height := "" },
          .velocity
            { acceleration := pAcceleration, velocity := env.vector4Default
              maxSpeed := pMaxSpeed },
          .colour { colour := pColour },
          .sphereCollider
            { radius := pRadius, collisionMask := pCollisionMask
              ignoreCollisionMask := pIgnoreCollisionMask } ] ∧
      comps.map Component.kind =
        [ .Geometry, .Shader, .PointLight, .Transform, .Audio, .Texture, .Velocity, .Colour,
          .SphereCollider ] := by
  refine ⟨_, ?_, ?_, rfl, rfl⟩ <;>
  simp [EntitySpawner.SpawnLaser, World.ecsCall, World.ecsCallRet, ECSManager.CreateEntity,
    ECSManager.addComp, ECSManager.AddGeometryComp, ECSManager.AddShaderComp,
    ECSManager.AddPointLightComp, ECSManager.AddTransformComp, ECSManager.AddAudioComp,
    ECSManager.AddTextureComp, ECSManager.AddVelocityComp, ECSManager.AddColourComp,
    ECSManager.AddSphereColliderComp, textureDefault]

/-- C2: for each of the ten spawners and every argument list, the function
returns the identifier of its single `CreateEntity` call, every `AddXComp` call
it issues is on that identifier, and the identifier's final signature is exactly
the set of kinds added, the archetype of the spawner, which the argument values
do not enter. -/
theorem spawner_signature_is_archetype {F : Type} (env : Env F) (h : Handle) (c : SpawnCall F)
    (w : World F) :
    (c.run env h w).1 = (ECSManager.CreateEntity env.alloc (w.ecs h)).1 ∧
    ((ECSManager.CreateEntity env.alloc (w.ecs h)).2.signatures (c.run env h w).1 = ∅) ∧
    ((c.run env h w).2.ecs h).calls.map Call.shape =
      (w.ecs h).calls.map Call.shape ++
        CallShape.createEntity (c.run env h w).1 ::
          (archetype c.spawner).map (CallShape.addComp · (c.run env h w).1) ∧
    ((c.run env h w).2.ecs h).signatures (c.run env h w).1 = (archetype c.spawner).toFinset ∧
    archetype .SpawnShip =
      [.Geometry, .Shader, .Texture, .Transform, .Velocity, .SphereCollider] ∧
    (archetype .SpawnPlayer).toFinset
      = {.Camera, .Transform, .Velocity, .BoxCollider, .Gravity} ∧
    (archetype .SpawnSun).toFinset = {.Geometry, .Shader, .Transform} ∧
    (archetype .SpawnSkyBox).toFinset = {.Geometry, .Shader, .Transform} := by
  obtain ⟨h1, h2, h3, -⟩ := SpawnCall.run_spec env h c w
  refine ⟨by rw [h1]; rfl, ?_, ?_, ?_, rfl, by decide, by decide, by decide⟩
  · simp [ECSManager.CreateEntity, h1]
  · rw [h2, h1]
  · rw [h3, h1, Function.update_same]

/-- C3: in each of the ten spawners no component kind is added twice: the kinds
of the `AddXComp` calls are pairwise different, all calls are on the entity just
created, and no call finds its kind already in the entity's signature, so the
record of duplicate adds is left as it was. -/
theorem spawner_never_adds_a_kind_twice {F : Type} (env : Env F) (h : Handle) (c : SpawnCall F)
    (w : World F) :
    (∃ kinds : List ComponentKind, kinds.Nodup ∧
      ((c.run env h w).2.ecs h).calls.map Call.shape =
        (w.ecs h).calls.map Call.shape ++
          CallShape.createEntity (c.run env h w).1 ::
            kinds.map (CallShape.addComp · (c.run env h w).1)) ∧
    ((c.run env h w).2.ecs h).duplicateAdds = (w.ecs h).duplicateAdds := by
  obtain ⟨h1, h2, -, h4, -⟩ := SpawnCall.run_spec env h c w
  exact ⟨⟨archetype c.spawner, archetype_nodup _, by rw [h2, h1]⟩, h4⟩

/-- C5: for every spawner and every argument list, the signature of the
returned entity either contains all of Geometry, Shader and Transform, or
contains neither Geometry nor Shader. -/
theorem spawner_geometry_implies_renderable {F : Type} (env : Env F) (h : Handle)
    (c : SpawnCall F) (w : World F) :
    ({.Geometry, .Shader, .Transform} ⊆ ((c.run env h w).2.ecs h).signatures (c.run env h w).1) ∨
    (ComponentKind.Geometry ∉ ((c.run env h w).2.ecs h).signatures (c.run env h w).1 ∧
      ComponentKind.Shader ∉ ((c.run env h w).2.ecs h).signatures (c.run env h w).1) := by
  obtain ⟨h1, -, h3, -⟩ := SpawnCall.run_spec env h c w
  rw [h3, h1, Function.update_same]
  exact archetype_renderable c.spawner

/-! ## wWinMain -/

/-- The set-up of `wWinMain` after a successful `InitWindow`: the manager that
`ECSManager::Instance()` yields receives the render system of the
configuration, then the four update systems, then the audio system of the
configuration; no other ECS manager changes. -/
theorem wWinMainSetup_spec {F : Type} (cfg : Config) (env : Env F) (hWnd : HWND)
    (w : World F) :
    ((wWinMainSetup cfg env (some hWnd) w).ecs (ECSManager.Instance env.fresh w).1).calls =
      ((ECSManager.Instance env.fresh w).2.ecs (ECSManager.Instance env.fresh w).1).calls ++
        (cfg.renderSystems hWnd).map Call.addRenderSystem ++
        ([ISystem.TransformSystem, .MovementSystem, .CollisionCheckSystem 1000 50,
          .CollisionResponseSystem] ++ cfg.audioSystems).map Call.addUpdateSystem ∧
    ((wWinMainSetup cfg env (some hWnd) w).ecs (ECSManager.Instance env.fresh w).1).updateSystems =
      ((ECSManager.Instance env.fresh w).2.ecs (ECSManager.Instance env.fresh w).1).updateSystems ++
        ([ISystem.TransformSystem, .MovementSystem, .CollisionCheckSystem 1000 50,
          .CollisionResponseSystem] ++ cfg.audioSystems) ∧
    ((wWinMainSetup cfg env (some hWnd) w).ecs (ECSManager.Instance env.fresh w).1).renderSystem =
      ((cfg.renderSystems hWnd).head?.orElse fun _ =>
        ((ECSManager.Instance env.fresh w).2.ecs (ECSManager.Instance env.fresh w).1).renderSystem) ∧
    (∀ h2, h2 ≠ (ECSManager.Instance env.fresh w).1 →
      (wWinMainSetup cfg env (some hWnd) w).ecs h2 = w.ecs h2) ∧
    (wWinMainSetup cfg env (some hWnd) w).ecsInstance = some (ECSManager.Instance env.fresh w).1 := by
  rcases hb : cfg.backend <;> rcases he : w.ecsInstance <;> rcases hg : w.guiInstance <;>
  simp [wWinMainSetup, ECSManager.Instance, GUIManager.Instance, hb, he, hg, World.ecsCall,
    ECSManager.AddRenderSystem, ECSManager.AddUpdateSystem, Config.renderSystems,
    Config.audioSystems] <;>
  intro h2 hne <;> simp [Function.update_noteq hne]

/-- C4, the claim at a concrete input: with `DIRECTX` not defined and `OPENGL`
defined as `0`, `OPENGL` is defined and yet the set-up registers the four update
systems and no audio system after them. -/
theorem wWinMain_opengl_zero_registers_no_audio :
    (Config.mk false (some 0)).OPENGL.isSome = true ∧
    ((wWinMainSetup (Config.mk false (some 0)) demoEnv (some 7) startWorld).ecs 0).updateSystems =
      [.TransformSystem, .MovementSystem, .CollisionCheckSystem 1000 50,
        .CollisionResponseSystem] := by
  exact ⟨rfl, rfl⟩

/-- C4, amended: after the set-up of `wWinMain` the `AddUpdateSystem` calls are
exactly TransformSystem, MovementSystem, CollisionCheckSystem,
CollisionResponseSystem and then the audio system, which is there when `DIRECTX`
is defined or, failing that, `OPENGL` has a value other than zero; they follow
the render system registration.  Hence a frame of the scheduler, which ticks the
update systems once each in registration order, runs these ticks in that order:
the collision check's tick ends and then the collision response's begins. -/
theorem wWinMain_update_systems_in_order {F : Type} (cfg : Config) (env : Env F) (hWnd : HWND)
    (w : World F) :
    ((wWinMainSetup cfg env (some hWnd) w).ecs (ECSManager.Instance env.fresh w).1).calls =
      ((ECSManager.Instance env.fresh w).2.ecs (ECSManager.Instance env.fresh w).1).calls ++
        (cfg.renderSystems hWnd).map Call.addRenderSystem ++
        ([ISystem.TransformSystem, .MovementSystem, .CollisionCheckSystem 1000 50,
          .CollisionResponseSystem] ++ cfg.audioSystems).map Call.addUpdateSystem ∧
    cfg.audioSystems =
      (if cfg.DIRECTX then [.AudioSystem_DX]
        else if cfg.OPENGL.getD 0 ≠ 0 then [.AudioSystem_GL] else []) ∧
    ((wWinMainSetup cfg env (some hWnd) w).ecs (ECSManager.Instance env.fresh w).1).Update =
      ((ECSManager.Instance env.fresh w).2.ecs
          (ECSManager.Instance env.fresh w).1).updateSystems.flatMap ticks ++
        [ .tickBegins .TransformSystem, .tickEnds .TransformSystem,
          .tickBegins .MovementSystem, .tickEnds .MovementSystem,
          .tickBegins (.CollisionCheckSystem 1000 50), .tickEnds (.CollisionCheckSystem 1000 50),
          .tickBegins .CollisionResponseSystem, .tickEnds .CollisionResponseSystem ] ++
        (cfg.audioSystems ++
          ((wWinMainSetup cfg env (some hWnd) w).ecs
            (ECSManager.Instance env.fresh w).1).renderSystem.toList).flatMap ticks ∧
    ∃ earlier later,
      ((wWinMainSetup cfg env (some hWnd) w).ecs (ECSManager.Instance env.fresh w).1).Update =
        earlier ++ TickEvent.tickEnds (.CollisionCheckSystem 1000 50) ::
          TickEvent.tickBegins .CollisionResponseSystem :: later := by
  obtain ⟨h1, h2, -⟩ := wWinMainSetup_spec cfg env hWnd w
  have h3 :
      ((wWinMainSetup cfg env (some hWnd) w).ecs (ECSManager.Instance env.fresh w).1).Update =
      ((ECSManager.Instance env.fresh w).2.ecs
          (ECSManager.Instance env.fresh w).1).updateSystems.flatMap ticks ++
        [ .tickBegins .TransformSystem, .tickEnds .TransformSystem,
          .tickBegins .MovementSystem, .tickEnds .MovementSystem,
          .tickBegins (.CollisionCheckSystem 1000 50), .tickEnds (.CollisionCheckSystem 1000 50),
          .tickBegins .CollisionResponseSystem, .tickEnds .CollisionResponseSystem ] ++
        (cfg.audioSystems ++
          ((wWinMainSetup cfg env (some hWnd) w).ecs
            (ECSManager.Instance env.fresh w).1).renderSystem.toList).flatMap ticks := by
    simp [ECSManager.Update, h2, ticks, List.flatMap_append]
  refine ⟨h1, ?_, h3, ?_⟩
  · unfold Config.audioSystems Config.backend
    split_ifs <;> rfl
  · refine ⟨((ECSManager.Instance env.fresh w).2.ecs
          (ECSManager.Instance env.fresh w).1).updateSystems.flatMap ticks ++
        [ .tickBegins .TransformSystem, .tickEnds .TransformSystem,
          .tickBegins .MovementSystem, .tickEnds .MovementSystem,
          .tickBegins (.CollisionCheckSystem 1000 50) ],
        .tickEnds .CollisionResponseSystem ::
        (cfg.audioSystems ++
          ((wWinMainSetup cfg env (some hWnd) w).ecs
            (ECSManager.Instance env.fresh w).1).renderSystem.toList).flatMap ticks, ?_⟩
    rw [h3]
    simp

/-- C10, the claim at two concrete inputs: with `OPENGL` defined as `0` and
`DIRECTX` not defined, and with `DIRECTX` defined and `InitWindow` failing, a
macro is defined and yet `AddRenderSystem` is not called. -/
theorem wWinMain_defined_macro_without_render_system :
    ((Config.mk false (some 0)).OPENGL.isSome = true ∧
      ((wWinMainSetup (Config.mk false (some 0)) demoEnv (some 7) startWorld).ecs 0).calls.map
        Call.shape =
        [ .addUpdateSystem .TransformSystem, .addUpdateSystem .MovementSystem,
          .addUpdateSystem (.CollisionCheckSystem 1000 50),
          .addUpdateSystem .CollisionResponseSystem ]) ∧
    ((Config.mk true none).DIRECTX = true ∧
      (wWinMainSetup (Config.mk true none) demoEnv none startWorld).ecsInstance = none ∧
      ((wWinMainSetup (Config.mk true none) demoEnv none startWorld).ecs 0).calls.map
        Call.shape = []) := by
  exact ⟨⟨rfl, rfl⟩, rfl, rfl, rfl⟩

/-- C10, amended: `wWinMain` registers at most one render system.  When
`InitWindow` fails it issues no call at all.  When it succeeds, the calls it
issues are the `AddRenderSystem` calls followed by the `AddUpdateSystem` calls;
`AddRenderSystem` is called exactly once when `DIRECTX` is defined or, failing
that, `OPENGL` has a value other than zero, and not at all otherwise; what it is
passed is a render system, and nothing passed to `AddUpdateSystem` is one. -/
theorem wWinMain_registers_at_most_one_render_system {F : Type} (cfg : Config) (env : Env F)
    (w : World F) :
    wWinMainSetup cfg env none w = w ∧
    ∀ hWnd : HWND, ∃ renders updates : List ISystem,
      ((wWinMainSetup cfg env (some hWnd) w).ecs (ECSManager.Instance env.fresh w).1).calls =
        ((ECSManager.Instance env.fresh w).2.ecs (ECSManager.Instance env.fresh w).1).calls ++
          renders.map Call.addRenderSystem ++ updates.map Call.addUpdateSystem ∧
      renders.length ≤ 1 ∧
      renders.length = (if cfg.DIRECTX = true ∨ cfg.OPENGL.getD 0 ≠ 0 then 1 else 0) ∧
      (∀ s ∈ renders, s.isRenderSystem = true) ∧
      (∀ s ∈ updates, s.isRenderSystem = false) := by
  refine ⟨rfl, fun hWnd => ⟨cfg.renderSystems hWnd, _, (wWinMainSetup_spec cfg env hWnd w).1, ?_⟩⟩
  unfold Config.renderSystems Config.audioSystems Config.backend
  split_ifs with h1 h2 <;> simp_all [ISystem.isRenderSystem]

/-! ## One ECS manager -/

/-- After a call of `ECSManager::Instance()` the static holds the manager the
call returned. -/
theorem ECSManager.Instance_static {F : Type} (fresh : ECSManager F) (w : World F) :
    (ECSManager.Instance fresh w).2.ecsInstance = some (ECSManager.Instance fresh w).1 := by
  rcases h0 : w.ecsInstance <;> simp [ECSManager.Instance, h0]

/-- A call of `ECSManager::Instance()` on a static that holds `h` returns `h`
and changes nothing. -/
theorem ECSManager.Instance_of_static {F : Type} (fresh : ECSManager F) (w : World F)
    (h : Handle) (hw : w.ecsInstance = some h) : ECSManager.Instance fresh w = (h, w) := by
  simp [ECSManager.Instance, hw]

/-- A call of `ECSManager::Instance()` leaves every manager but the one it
returns as it was. -/
theorem ECSManager.Instance_ecs_other {F : Type} (fresh : ECSManager F) (w : World F)
    (h2 : Handle) (hne : h2 ≠ (ECSManager.Instance fresh w).1) :
    (ECSManager.Instance fresh w).2.ecs h2 = w.ecs h2 := by
  rcases h0 : w.ecsInstance with _ | p
  · simp only [ECSManager.Instance, h0] at hne ⊢
    exact Function.update_noteq hne _ _
  · simp [ECSManager.Instance, h0]

/-- C6: in every state `w` of the process, the static of `ECSManager::Instance()`
empty or not, the initialiser of `entitySpawnerEcsManager`, the member
initialiser of `GameScene` and `wWinMain` each obtain their manager by a call of
`Instance()`: whichever runs first gets the manager that call returns (a new one
only when the static is empty), and in every later state `w2`, whose static is
what that call left, the others get the same manager and construct nothing.
Every call a spawner issues through its static and every call `wWinMain` issues
lands in that one manager, and every other ECS manager is left as it was.  In a
run of the whole program one manager receives the system registrations and the
spawner's calls. -/
theorem ecs_operations_on_the_one_instance {F : Type} (env : Env F) (w w2 : World F)
    (hstatic : w2.ecsInstance = (ECSManager.Instance env.fresh w).2.ecsInstance)
    (c : SpawnCall F) (cfg : Config) (hWnd : HWND) :
    -- the first to ask, in the state `w`
    (EntitySpawner.entitySpawnerEcsManagerInit env w = ECSManager.Instance env.fresh w ∧
      GameScene.memberInit env w =
        ({ mEcsManager := (ECSManager.Instance env.fresh w).1 },
          (ECSManager.Instance env.fresh w).2) ∧
      ((wWinMainSetup cfg env (some hWnd) w).ecs (ECSManager.Instance env.fresh w).1).calls =
        ((ECSManager.Instance env.fresh w).2.ecs (ECSManager.Instance env.fresh w).1).calls ++
          (cfg.renderSystems hWnd).map Call.addRenderSystem ++
          ([ISystem.TransformSystem, .MovementSystem, .CollisionCheckSystem 1000 50,
            .CollisionResponseSystem] ++ cfg.audioSystems).map Call.addUpdateSystem ∧
      (∀ h2, h2 ≠ (ECSManager.Instance env.fresh w).1 →
        (wWinMainSetup cfg env (some hWnd) w).ecs h2 = w.ecs h2) ∧
      (wWinMainSetup cfg env (some hWnd) w).ecsInstance
        = some (ECSManager.Instance env.fresh w).1) ∧
    -- whoever asks later, in the state `w2`
    (EntitySpawner.entitySpawnerEcsManagerInit env w2
        = ((ECSManager.Instance env.fresh w).1, w2) ∧
      GameScene.memberInit env w2
        = ({ mEcsManager := (ECSManager.Instance env.fresh w).1 }, w2) ∧
      ((wWinMainSetup cfg env (some hWnd) w2).ecs (ECSManager.Instance env.fresh w).1).calls =
        (w2.ecs (ECSManager.Instance env.fresh w).1).calls ++
          (cfg.renderSystems hWnd).map Call.addRenderSystem ++
          ([ISystem.TransformSystem, .MovementSystem, .CollisionCheckSystem 1000 50,
            .CollisionResponseSystem] ++ cfg.audioSystems).map Call.addUpdateSystem ∧
      (∀ h2, h2 ≠ (ECSManager.Instance env.fresh w).1 →
        (wWinMainSetup cfg env (some hWnd) w2).ecs h2 = w2.ecs h2) ∧
      (wWinMainSetup cfg env (some hWnd) w2).ecsInstance
        = some (ECSManager.Instance env.fresh w).1) ∧
    -- a spawner, through the static its initialiser obtained in `w`, run in `w2`
    (((c.run env (EntitySpawner.entitySpawnerEcsManagerInit env w).1 w2).2.ecs
          (ECSManager.Instance env.fresh w).1).calls.map Call.shape =
        (w2.ecs (ECSManager.Instance env.fresh w).1).calls.map Call.shape ++
          CallShape.createEntity (c.run env (EntitySpawner.entitySpawnerEcsManagerInit env w).1 w2).1 ::
            (archetype c.spawner).map
              (CallShape.addComp ·
                (c.run env (EntitySpawner.entitySpawnerEcsManagerInit env w).1 w2).1) ∧
      (∀ h2, h2 ≠ (ECSManager.Instance env.fresh w).1 →
        (c.run env (EntitySpawner.entitySpawnerEcsManagerInit env w).1 w2).2.ecs h2 = w2.ecs h2) ∧
      (c.run env (EntitySpawner.entitySpawnerEcsManagerInit env w).1 w2).2.ecsInstance
        = some (ECSManager.Instance env.fresh w).1 ∧
      (c.run env (EntitySpawner.entitySpawnerEcsManagerInit env w).1 w2).2.nextHandle
        = w2.nextHandle) ∧
    -- the whole program, from the state `w`
    ((programRun cfg env hWnd c w).1.1 = (ECSManager.Instance env.fresh w).1 ∧
      (programRun cfg env hWnd c w).1.2.1
        = { mEcsManager := (ECSManager.Instance env.fresh w).1 } ∧
      ((programRun cfg env hWnd c w).2.ecs (ECSManager.Instance env.fresh w).1).calls.map
          Call.shape =
        ((ECSManager.Instance env.fresh w).2.ecs (ECSManager.Instance env.fresh w).1).calls.map
            Call.shape ++
          ((cfg.renderSystems hWnd).map CallShape.addRenderSystem ++
            ([ISystem.TransformSystem, .MovementSystem, .CollisionCheckSystem 1000 50,
              .CollisionResponseSystem] ++ cfg.audioSystems).map CallShape.addUpdateSystem) ++
          CallShape.createEntity (programRun cfg env hWnd c w).1.2.2 ::
            (archetype c.spawner).map
              (CallShape.addComp · (programRun cfg env hWnd c w).1.2.2) ∧
      (∀ h2, h2 ≠ (ECSManager.Instance env.fresh w).1 →
        (programRun cfg env hWnd c w).2.ecs h2 = w.ecs h2) ∧
      (programRun cfg env hWnd c w).2.ecsInstance
        = some (ECSManager.Instance env.fresh w).1) := by
  have hI := ECSManager.Instance_static env.fresh w
  have hw2 : w2.ecsInstance = some (ECSManager.Instance env.fresh w).1 := by rw [hstatic, hI]
  have hi2 := ECSManager.Instance_of_static env.fresh w2 _ hw2
  have hi1 := ECSManager.Instance_of_static env.fresh (ECSManager.Instance env.fresh w).2 _ hI
  obtain ⟨a1, -, -, a4, a5⟩ := wWinMainSetup_spec cfg env hWnd w
  obtain ⟨b1, -, -, b4, b5⟩ := wWinMainSetup_spec cfg env hWnd w2
  simp only [hi2] at b1 b4 b5
  obtain ⟨s1, s2, -, -, -, -, s7, s8, -, -, s11, -⟩ :=
    SpawnCall.run_spec env (ECSManager.Instance env.fresh w).1 c w2
  rw [show EntitySpawner.entitySpawnerEcsManagerInit env w = ECSManager.Instance env.fresh w
    from rfl]
  refine ⟨⟨rfl, rfl, a1, a4, a5⟩, ⟨hi2, ?_, b1, b4, b5⟩,
    ⟨by rw [s2, s1], s7, by rw [s8, hw2], s11⟩, ?_⟩
  · simp [GameScene.memberInit, hi2]
  · obtain ⟨m1, -, -, m4, m5⟩ :=
      wWinMainSetup_spec cfg env hWnd (ECSManager.Instance env.fresh w).2
    simp only [hi1] at m1 m4 m5
    have hg := ECSManager.Instance_of_static env.fresh
      (wWinMainSetup cfg env (some hWnd) (ECSManager.Instance env.fresh w).2) _ m5
    obtain ⟨r1, r2, -, -, -, -, r7, r8, -⟩ :=
      SpawnCall.run_spec env (ECSManager.Instance env.fresh w).1 c
        (wWinMainSetup cfg env (some hWnd) (ECSManager.Instance env.fresh w).2)
    have hrun : programRun cfg env hWnd c w =
        (((ECSManager.Instance env.fresh w).1,
          { mEcsManager := (ECSManager.Instance env.fresh w).1 },
          (c.run env (ECSManager.Instance env.fresh w).1
            (wWinMainSetup cfg env (some hWnd) (ECSManager.Instance env.fresh w).2)).1),
          (c.run env (ECSManager.Instance env.fresh w).1
            (wWinMainSetup cfg env (some hWnd) (ECSManager.Instance env.fresh w).2)).2) := by
      simp [programRun, EntitySpawner.entitySpawnerEcsManagerInit, GameScene.memberInit, hg]
    rw [hrun]
    refine ⟨rfl, rfl, ?_, ?_, by rw [r8, m5]⟩
    · simp only [r2, r1, m1, List.map_append, List.map_map, List.append_assoc]
      rfl
    · intro h2 hne
      rw [r7 h2 hne, m4 h2 hne, ECSManager.Instance_ecs_other env.fresh w h2 hne]

/-- C6 at a concrete input: a process whose static is still empty and whose next
free address is 3, the sky box spawner and a DirectX build.  The static
initialiser creates the manager at address 3, and after the whole program that
one manager has received the registrations of `wWinMain` and the calls of the
spawner, and the scene holds it too. -/
theorem ecs_operations_on_the_one_instance_witness :
    earlyWorld.ecsInstance = none ∧
    (EntitySpawner.entitySpawnerEcsManagerInit demoEnv earlyWorld).2.ecsInstance
      = (ECSManager.Instance demoEnv.fresh earlyWorld).2.ecsInstance ∧
    (programRun (Config.mk true none) demoEnv 7 SpawnCall.SpawnSkyBox earlyWorld).1.1 = 3 ∧
    (programRun (Config.mk true none) demoEnv 7 SpawnCall.SpawnSkyBox earlyWorld).1.2.1
      = { mEcsManager := 3 } ∧
    ((programRun (Config.mk true none) demoEnv 7 SpawnCall.SpawnSkyBox earlyWorld).2.ecs 3).calls.map
      Call.shape =
      [ .addRenderSystem (.RenderSystem_DX 7 20 2 1), .addUpdateSystem .TransformSystem,
        .addUpdateSystem .MovementSystem, .addUpdateSystem (.CollisionCheckSystem 1000 50),
        .addUpdateSystem .CollisionResponseSystem, .addUpdateSystem .AudioSystem_DX,
        .createEntity 6, .addComp .Geometry 6, .addComp .Shader 6, .addComp .Transform 6 ] ∧
    (programRun (Config.mk true none) demoEnv 7 SpawnCall.SpawnSkyBox earlyWorld).2.ecsInstance
      = some 3 := by
  have key := ecs_operations_on_the_one_instance demoEnv earlyWorld
    (EntitySpawner.entitySpawnerEcsManagerInit demoEnv earlyWorld).2 rfl
    SpawnCall.SpawnSkyBox (Config.mk true none) 7
  exact ⟨rfl, rfl, key.2.2.2.1, key.2.2.2.2.1, key.2.2.2.2.2.1.trans rfl, key.2.2.2.2.2.2.2⟩

/-! ## GUIManager -/

/-- C7: `GUIManager::Instance()` creates a manager only when its static is not
yet initialised, and then returns what the static holds: in any later state `w2`
of the process, whose static is what the first call left, the call returns the
same manager as the first call and changes nothing, and a bar added through the
one pointer is the last bar seen through the other. -/
theorem GUIManager_Instance_returns_the_same_manager {F : Type} (w w2 : World F)
    (hstatic : w2.guiInstance = (GUIManager.Instance w).2.guiInstance)
    (twNewBar : List TwCall → String → TwBar) (pBarName : String) :
    (GUIManager.Instance w2).1 = (GUIManager.Instance w).1 ∧
    (GUIManager.Instance w2).2 = w2 ∧
    (w.guiInstance = none →
      (GUIManager.Instance w).1 = w.nextHandle ∧
      (GUIManager.Instance w).2.gui w.nextHandle = GUIManager.new ∧
      (GUIManager.Instance w).2.nextHandle = w.nextHandle + 1) ∧
    (∀ p, w.guiInstance = some p → GUIManager.Instance w = (p, w)) ∧
    ((w2.guiCall (GUIManager.Instance w).1 (GUIManager.AddBar twNewBar pBarName)).gui
        (GUIManager.Instance w2).1).mBars =
      (w2.gui (GUIManager.Instance w).1).mBars ++ [(pBarName, twNewBar w2.tw pBarName)] := by
  have hsome : (GUIManager.Instance w).2.guiInstance = some (GUIManager.Instance w).1 := by
    rcases h0 : w.guiInstance <;> simp [GUIManager.Instance, h0]
  rw [hsome] at hstatic
  have h2 : GUIManager.Instance w2 = ((GUIManager.Instance w).1, w2) := by
    simp [GUIManager.Instance, hstatic]
  refine ⟨by rw [h2], by rw [h2], ?_, ?_, ?_⟩
  · intro h0
    simp [GUIManager.Instance, h0]
  · intro p hp
    simp [GUIManager.Instance, hp]
  · rw [h2]
    simp [World.guiCall, GUIManager.AddBar]

/-- C7 at a concrete input: a process that starts without a manager; the first
call creates one, a bar is added, and a second call returns the same manager,
through which a second bar is added and both are read. -/
theorem GUIManager_Instance_returns_the_same_manager_witness :
    ((GUIManager.Instance startWorld).2.guiCall 0 (GUIManager.AddBar demoNewBar "hud")).guiInstance
      = (GUIManager.Instance startWorld).2.guiInstance ∧
    (GUIManager.Instance
      ((GUIManager.Instance startWorld).2.guiCall 0 (GUIManager.AddBar demoNewBar "hud"))).1
      = (GUIManager.Instance startWorld).1 ∧
    ((((GUIManager.Instance startWorld).2.guiCall 0 (GUIManager.AddBar demoNewBar "hud")).guiCall
        (GUIManager.Instance startWorld).1 (GUIManager.AddBar demoNewBar "stats")).gui
          (GUIManager.Instance
            ((GUIManager.Instance startWorld).2.guiCall 0
              (GUIManager.AddBar demoNewBar "hud"))).1).mBars
      = [("hud", 1), ("stats", 2)] := by
  have key := GUIManager_Instance_returns_the_same_manager startWorld
    ((GUIManager.Instance startWorld).2.guiCall 0 (GUIManager.AddBar demoNewBar "hud")) rfl
    demoNewBar "stats"
  refine ⟨rfl, key.1, ?_⟩
  rw [key.2.2.2.2]; rfl

/-- Splitting a list at the first element that satisfies `p`: what
`std::find_if` finds, and what erasing there leaves. -/
theorem findIdx_split {α : Type} (p : α → Bool) (l : List α) (hex : ∃ x ∈ l, p x = true) :
    ∃ l1 x l2, l = l1 ++ x :: l2 ∧ p x = true ∧ (∀ e ∈ l1, p e = false) ∧
      l[l.findIdx p]? = some x ∧ l.eraseIdx (l.findIdx p) = l1 ++ l2 := by
  induction l with
  | nil => simp at hex
  | cons a t ih =>
    by_cases ha : p a = true
    · exact ⟨[], a, t, rfl, ha, by simp, by simp [List.findIdx_cons, ha],
        by simp [List.findIdx_cons, ha]⟩
    · have hex2 : ∃ x ∈ t, p x = true := by
        obtain ⟨x, hx, hpx⟩ := hex
        rcases List.mem_cons.mp hx with rfl | hx
        · exact absurd hpx ha
        · exact ⟨x, hx, hpx⟩
      obtain ⟨l1, x, l2, e1, e2, e3, e4, e5⟩ := ih hex2
      refine ⟨a :: l1, x, l2, by rw [e1]; rfl, e2, ?_, ?_, ?_⟩
      · intro e he
        rcases List.mem_cons.mp he with rfl | he
        · simpa using ha
        · exact e3 e he
      · simpa [List.findIdx_cons, ha] using e4
      · simpa [List.findIdx_cons, ha] using e5

/-- C8: for every bar list and every name that occurs in it, `DeleteBar(name)`
returns normally, calls `TwDeleteBar` on the bar pointer of the first entry
with that name and removes that one entry: the entries before it, none of which
has the name, and all entries after it, same-named ones included, stay in
their order. -/
theorem DeleteBar_removes_first_bar_with_name (g : GUIManager) (pBarName : String)
    (tw : List TwCall) (hname : ∃ bar ∈ g.mBars, bar.1 = pBarName) :
    ∃ (front : List (String × TwBar)) (b : TwBar) (back : List (String × TwBar)),
      g.mBars = front ++ (pBarName, b) :: back ∧
      (∀ e ∈ front, e.1 ≠ pBarName) ∧
      GUIManager.DeleteBar pBarName g tw =
        some ({ g with mBars := front ++ back }, tw ++ [TwCall.TwDeleteBar b]) := by
  have hex : ∃ x ∈ g.mBars, (fun bar : String × TwBar => bar.1 == pBarName) x = true := by
    obtain ⟨bar, hb, hn⟩ := hname
    exact ⟨bar, hb, by simp [hn]⟩
  obtain ⟨l1, x, l2, e1, e2, e3, e4, e5⟩ := findIdx_split _ g.mBars hex
  obtain ⟨n, b⟩ := x
  have hn : n = pBarName := by simpa using e2
  subst hn
  refine ⟨l1, b, l2, e1, ?_, ?_⟩
  · intro e he
    simpa using e3 e he
  · simp only [GUIManager.DeleteBar, e4, e5]

/-- C8 at a concrete input: of two bars named "stats" the first is deleted and
the second stays. -/
theorem DeleteBar_removes_first_bar_with_name_witness :
    (∃ bar ∈ demoBars.mBars, bar.1 = "stats") ∧
    (∃ (front : List (String × TwBar)) (b : TwBar) (back : List (String × TwBar)),
      demoBars.mBars = front ++ ("stats", b) :: back ∧
      (∀ e ∈ front, e.1 ≠ "stats") ∧
      GUIManager.DeleteBar "stats" demoBars [] =
        some ({ demoBars with mBars := front ++ back }, [] ++ [TwCall.TwDeleteBar b])) ∧
    GUIManager.DeleteBar "stats" demoBars [] =
      some ({ demoBars with mBars := [("hud", 11), ("stats", 13)] }, [TwCall.TwDeleteBar 12]) :=
  ⟨⟨("stats", 12), by decide, rfl⟩,
    DeleteBar_removes_first_bar_with_name demoBars "stats" [] ⟨("stats", 12), by decide, rfl⟩,
    by decide⟩

/-- C9 at a concrete input: after `Cleanup()` the bar list of a manager with
three bars still holds the three bars, and a following `Draw()` refreshes each
of them, after `TwDeleteAllBars` and `TwTerminate`. -/
theorem Cleanup_leaves_mBars_and_Draw_refreshes :
    (GUIManager.Cleanup demoBars []).1.mBars = [("hud", 11), ("stats", 12), ("stats", 13)] ∧
    (GUIManager.Draw (GUIManager.Cleanup demoBars []).1 (GUIManager.Cleanup demoBars []).2).2 =
      [ .TwDeleteAllBars, .TwTerminate, .TwRefreshBar 11, .TwRefreshBar 12, .TwRefreshBar 13,
        .TwDraw ] := by
  decide

/-! ## Transforms and colliders of the spawned entities -/

/-- Every archetype holds Transform, and none holds both collider kinds. -/
theorem archetype_transform_and_one_collider (s : Spawner) :
    ComponentKind.Transform ∈ (archetype s).toFinset ∧
    ¬ (ComponentKind.SphereCollider ∈ (archetype s).toFinset ∧
      ComponentKind.BoxCollider ∈ (archetype s).toFinset) := by
  cases s <;> decide

/-- C11: for every spawner and every argument list the signature of the
returned entity contains Transform; in particular it does so when it contains
SphereCollider or BoxCollider, and it never contains both collider kinds. -/
theorem spawned_entity_carries_transform {F : Type} (env : Env F) (h : Handle)
    (c : SpawnCall F) (w : World F) :
    ComponentKind.Transform ∈ ((c.run env h w).2.ecs h).signatures (c.run env h w).1 ∧
    ((ComponentKind.SphereCollider ∈ ((c.run env h w).2.ecs h).signatures (c.run env h w).1 ∨
        ComponentKind.BoxCollider ∈ ((c.run env h w).2.ecs h).signatures (c.run env h w).1) →
      ComponentKind.Transform ∈ ((c.run env h w).2.ecs h).signatures (c.run env h w).1) ∧
    ¬ (ComponentKind.SphereCollider ∈ ((c.run env h w).2.ecs h).signatures (c.run env h w).1 ∧
      ComponentKind.BoxCollider ∈ ((c.run env h w).2.ecs h).signatures (c.run env h w).1) := by
  obtain ⟨h1, -, h3, -⟩ := SpawnCall.run_spec env h c w
  rw [h3, h1, Function.update_same]
  exact ⟨(archetype_transform_and_one_collider c.spawner).1,
    fun _ => (archetype_transform_and_one_collider c.spawner).1,
    (archetype_transform_and_one_collider c.spawner).2⟩

/-- C12: for each spawner and all arguments, among the calls the spawner issues
there is exactly one `AddTransformComp`, on the created entity, and the
Transform it passes is the expected one: translation `pPosition`, scale `pScale`
and rotation `pRotation` on a default-constructed Transform for the nine
spawners that take them, and scale `(1,1,1,1)`, translation `(0,0,0,1)` and the
default rotation for `SpawnSkyBox`. -/
theorem spawner_passes_expected_transform {F : Type} (env : Env F) (h : Handle)
    (c : SpawnCall F) (w : World F) :
    (((c.run env h w).2.ecs h).calls.drop (w.ecs h).calls.length).filterMap Call.transform? =
      [(c.expectedTransform env, (c.run env h w).1)] ∧
    ((c.run env h w).2.ecs h).calls.take (w.ecs h).calls.length = (w.ecs h).calls ∧
    (SpawnCall.SpawnSkyBox.expectedTransform env).mScale =
      { X := env.lit 1, Y := env.lit 1, Z := env.lit 1, W := env.lit 1 } ∧
    (SpawnCall.SpawnSkyBox.expectedTransform env).mTranslation =
      { X := env.lit 0, Y := env.lit 0, Z := env.lit 0, W := env.lit 1 } ∧
    (SpawnCall.SpawnSkyBox.expectedTransform env).mRotation = env.transformDefault.mRotation := by
  refine ⟨?_, ?_, rfl, rfl, rfl⟩ <;>
  cases c <;>
  simp [SpawnCall.run, SpawnCall.expectedTransform, EntitySpawner.SpawnLaser,
    EntitySpawner.SpawnShip, EntitySpawner.SpawnAsteroid, EntitySpawner.SpawnLaserGun,
    EntitySpawner.SpawnCamera, EntitySpawner.SpawnPlayer, EntitySpawner.SpawnEngine,
    EntitySpawner.SpawnPlanetSurface, EntitySpawner.SpawnSun, EntitySpawner.SpawnSkyBox,
    World.ecsCall, World.ecsCallRet, ECSManager.CreateEntity, ECSManager.addComp,
    ECSManager.AddGeometryComp, ECSManager.AddShaderComp, ECSManager.AddPointLightComp,
    ECSManager.AddTransformComp, ECSManager.AddAudioComp, ECSManager.AddTextureComp,
    ECSManager.AddVelocityComp, ECSManager.AddColourComp, ECSManager.AddSphereColliderComp,
    ECSManager.AddBoxColliderComp, ECSManager.AddCameraComp, ECSManager.AddGravityComp,
    Call.transform?]

/-! ## GUIManager: buttons, sprites and texts -/

/-- The element right after a front part of a list is at the index of the front
part's length. -/
theorem getElem?_append_cons_length {α : Type} (front : List α) (b : α) (t : List α) :
    (front ++ b :: t)[front.length]? = some b := by
  induction front with
  | nil => simp
  | cons x xs ih => simpa using ih

/-- Assigning at the index of the front part's length replaces the element right
after the front part. -/
theorem set_append_cons_length {α : Type} (front : List α) (b x : α) (t : List α) :
    (front ++ b :: t).set front.length x = front ++ x :: t := by
  induction front with
  | nil => rfl
  | cons y ys ih => simp

/-- The loop of `Update` over the buttons still to visit, when every on-click
function it has to call returns and leaves the buttons as they are: it returns,
having called the functions of the clicked buttons in order and having turned
every button into its outcome. -/
theorem UpdateLoop_returns {F : Type} (env : GuiEnv F) (invoke : Invoke F)
    (input : InputManager F) (todo : List (String × Button F)) :
    ∀ (front : List (String × Button F)) (g : GUIOverlay F) (n : Nat) (called : List OnClick),
      g.mButtons = front ++ todo → todo.length ≤ n →
      (∀ b ∈ todo, mouseInside env input.MousePos b.2 = true → leftPressed input = true →
        ∀ g2 : GUIOverlay F,
          (invoke b.2.mOnClickFunction g2).map (fun r => r.mButtons) = some g2.mButtons) →
      ∃ g3 : GUIOverlay F,
        GUIOverlay.UpdateLoop env invoke input input.MousePos n front.length g called =
          .returned g3
            (called ++
              (todo.filter fun b => mouseInside env input.MousePos b.2 && leftPressed input).map
                fun b => b.2.mOnClickFunction) ∧
        g3.mButtons = front ++ todo.map fun b => (b.1, buttonOutcome env input b.2) := by
  induction todo with
  | nil =>
    intro front g n called hg _ _
    refine ⟨g, ?_, by simpa using hg⟩
    cases n with
    | zero => simp [GUIOverlay.UpdateLoop]
    | succ n => simp [GUIOverlay.UpdateLoop, hg]
  | cons b t ih =>
    intro front g n called hg hn hcall
    obtain ⟨n, rfl⟩ : ∃ m, n = m + 1 := ⟨n - 1, by simp at hn; omega⟩
    have hlen : t.length ≤ n := by simp at hn; omega
    have hrest : ∀ b2 ∈ t, mouseInside env input.MousePos b2.2 = true →
        leftPressed input = true → ∀ g2 : GUIOverlay F,
          (invoke b2.2.mOnClickFunction g2).map (fun r => r.mButtons) = some g2.mButtons :=
      fun b2 hb2 => hcall b2 (List.mem_cons_of_mem _ hb2)
    have hget : g.mButtons[front.length]? = some b := by
      rw [hg]; exact getElem?_append_cons_length front b t
    have hnext : (front ++ [b]).length = front.length + 1 := by simp
    by_cases hin : mouseInside env input.MousePos b.2 = true
    · by_cases hp : leftPressed input = true
      · obtain ⟨g2, hinv, hsame⟩ : ∃ g2, invoke b.2.mOnClickFunction g = some g2 ∧
            g2.mButtons = g.mButtons := by
          have := hcall b (List.mem_cons_self _ _) hin hp g
          rcases hopt : invoke b.2.mOnClickFunction g with _ | g2
          · simp [hopt] at this
          · exact ⟨g2, rfl, by simpa [hopt] using this⟩
        obtain ⟨g3, h1, h2⟩ := ih (front ++ [b]) g2 n (called ++ [b.2.mOnClickFunction])
          (by rw [hsame, hg]; simp) hlen hrest
        refine ⟨g3, ?_, ?_⟩
        · rw [hnext] at h1
          have hcond := hin
          unfold mouseInside at hcond
          unfold leftPressed at hp
          simp only [Bool.and_assoc] at hcond
          simp only [GUIOverlay.UpdateLoop, hget, Bool.and_assoc, hcond, hp, hinv, hsame,
            if_true, h1]
          simp [List.filter_cons, hin, leftPressed, hp]
        · rw [h2]
          simp [buttonOutcome, hin, hp]
      · have hp2 : leftPressed input = false := by simpa using hp
        obtain ⟨g3, h1, h2⟩ := ih
          (front ++ [(b.1, { b.2 with
            mText := { b.2.mText with mColour := b.2.mTextColourHover.toXMFLOAT4 } })])
          { g with
            mButtons := g.mButtons.set front.length
              (b.1, { b.2 with
                mText := { b.2.mText with mColour := b.2.mTextColourHover.toXMFLOAT4 } }) }
          n called (by simp only [hg, set_append_cons_length]; simp) hlen hrest
        refine ⟨g3, ?_, ?_⟩
        · rw [List.length_append, List.length_singleton] at h1
          have hcond := hin
          unfold mouseInside at hcond
          unfold leftPressed at hp2
          simp only [Bool.and_assoc] at hcond
          simp only [GUIOverlay.UpdateLoop, hget, Bool.and_assoc, hcond, hp2, if_true]
          simp only [Vector4.toXMFLOAT4] at h1
          simp [h1, List.filter_cons, hin, leftPressed, hp2]
        · rw [h2]
          simp [buttonOutcome, hin, hp2]
    · have hin2 : mouseInside env input.MousePos b.2 = false := by simpa using hin
      obtain ⟨g3, h1, h2⟩ := ih
        (front ++ [(b.1, { b.2 with
          mText := { b.2.mText with mColour := b.2.mTextColourOriginal.toXMFLOAT4 } })])
        { g with
          mButtons := g.mButtons.set front.length
            (b.1, { b.2 with
              mText := { b.2.mText with mColour := b.2.mTextColourOriginal.toXMFLOAT4 } }) }
        n called (by simp only [hg, set_append_cons_length]; simp) hlen hrest
      refine ⟨g3, ?_, ?_⟩
      · rw [List.length_append, List.length_singleton] at h1
        have hcond := hin2
        unfold mouseInside at hcond
        simp only [Bool.and_assoc] at hcond
        simp only [GUIOverlay.UpdateLoop, hget, Bool.and_assoc, hcond]
        simp only [Vector4.toXMFLOAT4] at h1
        simp [h1, List.filter_cons, hin2]
      · rw [h2]
        simp [buttonOutcome, hin2]

/-- C13, the claim at two concrete inputs, the mouse inside and the left button
held.  First: the clicked button's on-click function is an empty
`std::function`; the call throws, `Update` is left at that button, the second
clicked button's function 8 is never called and the third button, outside the
mouse, keeps its red text instead of taking its original white.  Second: the
clicked button's function removes the buttons; what `Update` does with the
remaining button is undefined. -/
theorem Update_stops_at_a_failing_click :
    GUIOverlay.Update demoGuiEnv demoInvoke demoInput
      { demoOverlay with
        mButtons :=
          [ ("a", demoButton 100 50 { x := 1, y := 1, z := 1, w := 1 } 0),
            ("b", demoButton 100 50 { x := 1, y := 1, z := 1, w := 1 } 8),
            ("c", demoButton 400 300 { x := 1, y := 0, z := 0, w := 1 } 5) ] } =
      .threw
        { demoOverlay with
          mButtons :=
            [ ("a", demoButton 100 50 { x := 1, y := 1, z := 1, w := 1 } 0),
              ("b", demoButton 100 50 { x := 1, y := 1, z := 1, w := 1 } 8),
              ("c", demoButton 400 300 { x := 1, y := 0, z := 0, w := 1 } 5) ] }
        [0] ∧
    GUIOverlay.Update demoGuiEnv demoInvoke demoInput
      { demoOverlay with
        mButtons :=
          [ ("play", demoButton 100 50 { x := 1, y := 1, z := 1, w := 1 } 9),
            ("c", demoButton 400 300 { x := 1, y := 0, z := 0, w := 1 } 5) ] } =
      .undefined := by
  decide

/-- C13, amended: for every mouse position, input state and button list such
that each on-click function `Update` has to call (that of a button the mouse is
inside of while the left button is down or held) returns and leaves the buttons
as they are, one call of `Update` returns, turns every button into its own
outcome, whatever the other buttons are, and has called, in order and once each,
the on-click functions of exactly the clicked buttons.  The outcome of a button
is: (i) inside and pressed, the button is not modified; (ii) inside and not
pressed, its text colour becomes the hover colour; (iii) not inside, its text
colour becomes the original colour. -/
theorem Update_handles_every_button {F : Type} (env : GuiEnv F) (invoke : Invoke F)
    (input : InputManager F) (g : GUIOverlay F)
    (hcall : ∀ b ∈ g.mButtons, mouseInside env input.MousePos b.2 = true →
      leftPressed input = true → ∀ g2 : GUIOverlay F,
        (invoke b.2.mOnClickFunction g2).map (fun r => r.mButtons) = some g2.mButtons) :
    (∃ g3 : GUIOverlay F,
      GUIOverlay.Update env invoke input g =
        .returned g3
          ((g.mButtons.filter fun b =>
              mouseInside env input.MousePos b.2 && leftPressed input).map
            fun b => b.2.mOnClickFunction) ∧
      g3.mButtons = g.mButtons.map fun b => (b.1, buttonOutcome env input b.2)) ∧
    ∀ b : Button F,
      (mouseInside env input.MousePos b = true → leftPressed input = true →
        buttonOutcome env input b = b) ∧
      (mouseInside env input.MousePos b = true → leftPressed input = false →
        buttonOutcome env input b =
          { b with mText := { b.mText with mColour := b.mTextColourHover.toXMFLOAT4 } }) ∧
      (mouseInside env input.MousePos b = false →
        buttonOutcome env input b =
          { b with mText := { b.mText with mColour := b.mTextColourOriginal.toXMFLOAT4 } }) := by
  refine ⟨?_, fun b => ⟨?_, ?_, ?_⟩⟩
  · obtain ⟨g3, h1, h2⟩ :=
      UpdateLoop_returns env invoke input g.mButtons [] g g.mButtons.length [] rfl (le_refl _)
        hcall
    exact ⟨g3, by simpa [GUIOverlay.Update] using h1, by simpa using h2⟩
  · intro hi hp
    simp [buttonOutcome, hi, hp]
  · intro hi hp
    simp [buttonOutcome, hi, hp]
  · intro hi
    simp [buttonOutcome, hi]

/-- C13 at a concrete input: two buttons, the mouse inside the first only, the
left button held, and on-click functions that return.  The first button's
function 7 is called, once, and the button is left as it is; the second button
is still visited and its red text takes the original white. -/
theorem Update_handles_every_button_witness :
    (∀ b ∈ [ ("a", demoButton 100 50 { x := 1, y := 0, z := 0, w := 1 } 7),
             ("b", demoButton 400 300 { x := 1, y := 0, z := 0, w := 1 } 8) ],
      mouseInside demoGuiEnv demoInput.MousePos b.2 = true → leftPressed demoInput = true →
        ∀ g2 : GUIOverlay Int,
          (demoInvoke b.2.mOnClickFunction g2).map (fun r => r.mButtons) = some g2.mButtons) ∧
    (∃ g3 : GUIOverlay Int,
      GUIOverlay.Update demoGuiEnv demoInvoke demoInput
        { demoOverlay with
          mButtons :=
            [ ("a", demoButton 100 50 { x := 1, y := 0, z := 0, w := 1 } 7),
              ("b", demoButton 400 300 { x := 1, y := 0, z := 0, w := 1 } 8) ] } =
        .returned g3 [7] ∧
      g3.mButtons =
        [ ("a", demoButton 100 50 { x := 1, y := 0, z := 0, w := 1 } 7),
          ("b", demoButton 400 300 { x := 1, y := 1, z := 1, w := 1 } 8) ]) := by
  have hyp : ∀ b ∈ [ ("a", demoButton 100 50 { x := 1, y := 0, z := 0, w := 1 } 7),
             ("b", demoButton 400 300 { x := 1, y := 0, z := 0, w := 1 } 8) ],
      mouseInside demoGuiEnv demoInput.MousePos b.2 = true → leftPressed demoInput = true →
        ∀ g2 : GUIOverlay Int,
          (demoInvoke b.2.mOnClickFunction g2).map (fun r => r.mButtons) = some g2.mButtons := by
    intro b hb _ _ g2
    simp only [List.mem_cons, List.mem_singleton, List.not_mem_nil, or_false] at hb
    rcases hb with rfl | rfl <;> rfl
  obtain ⟨g3, h1, h2⟩ := (Update_handles_every_button demoGuiEnv demoInvoke demoInput
    { demoOverlay with
      mButtons :=
        [ ("a", demoButton 100 50 { x := 1, y := 0, z := 0, w := 1 } 7),
          ("b", demoButton 400 300 { x := 1, y := 0, z := 0, w := 1 } 8) ] } hyp).1
  have hcalled :
      (([ ("a", demoButton 100 50 { x := 1, y := 0, z := 0, w := 1 } 7),
          ("b", demoButton 400 300 { x := 1, y := 0, z := 0, w := 1 } 8) ].filter fun b =>
            mouseInside demoGuiEnv demoInput.MousePos b.2 && leftPressed demoInput).map
        fun b => b.2.mOnClickFunction) = [7] := by decide
  exact ⟨hyp, g3, h1.trans (congrArg _ hcalled), h2.trans (by decide)⟩

/-- Function `CreateButton`, for every texture that loads: the button it appends
has the texture's height in `mWidth` and the texture's width in `mHeight`. -/
theorem CreateButton_sprite_size {F : Type} (env : GuiEnv F) (pFileName pFontName pText : String)
    (pRotation pButtonScale pTextScale : F) (pOrigin : ButtonOrigin) (pPosition : ButtonPosition)
    (pButtonPadding pTextPadding : Vector2 F) (pTextColour pTextColourHover : Vector4 F)
    (pOnClickFunction : OnClick) (pIsVisible : Bool) (g : GUIOverlay F)
    (desc : D3D11_TEXTURE2D_DESC) (hload : env.texture pFileName = some desc) :
    ∃ (g2 : GUIOverlay F) (b : Button F),
      GUIOverlay.CreateButton env pFileName pFontName pText pRotation pButtonScale pTextScale
        pOrigin pPosition pButtonPadding pTextPadding pTextColour pTextColourHover
        pOnClickFunction pIsVisible g = some (g2, some g.mButtons.length) ∧
      g2.mButtons = g.mButtons ++ [(pFileName, b)] ∧
      b.mSprite.mWidth = desc.Height ∧ b.mSprite.mHeight = desc.Width := by
  cases pOrigin
  cases pPosition <;> simp [GUIOverlay.CreateButton, hload, backPointer, GUIOverlay.LoadFont]

/-- The effect of an assignment through `back()` after `emplace_back`. -/
theorem updateBack_append_singleton {α : Type} (f : α → α) (l : List α) (a : α) :
    updateBack f (l ++ [a]) = l ++ [f a] := by
  induction l with
  | nil => rfl
  | cons x t ih =>
    cases t with
    | nil => rfl
    | cons y t2 =>
      change x :: updateBack f (y :: t2 ++ [a]) = _
      rw [ih]
      rfl

/-- Function `LoadSprite` with a `SpriteOrigin` and a `Vector2` position, for
every texture that loads: the sprite it appends has the texture's width in
`mWidth` and the texture's height in `mHeight`. -/
theorem LoadSprite_sprite_size {F : Type} (env : GuiEnv F) (pFileName : String)
    (pOrigin : SpriteOrigin) (pPosition pPadding : Vector2 F) (pRotation pScale : F)
    (pIsVisible : Bool) (g : GUIOverlay F)
    (desc : D3D11_TEXTURE2D_DESC) (hload : env.texture pFileName = some desc) :
    ∃ (g2 : GUIOverlay F) (s : Sprite F),
      GUIOverlay.LoadSprite_Origin_V2 env pFileName pOrigin pPosition pPadding pRotation pScale
        pIsVisible g = some (g2, some g.mSprites.length) ∧
      g2.mSprites = g.mSprites ++ [(pFileName, s)] ∧
      s.mWidth = desc.Width ∧ s.mHeight = desc.Height := by
  cases pOrigin
  simp [GUIOverlay.LoadSprite_Origin_V2, GUIOverlay.loadBackTexture, hload, backPointer,
    updateBack_append_singleton]

/-- C14 at a concrete input: for a texture 600 wide and 100 high,
`CreateButton` returns a button whose sprite has `mWidth` 100 and `mHeight` 600,
where `LoadSprite` records `mWidth` 600 and `mHeight` 100. -/
theorem CreateButton_swaps_width_and_height :
    demoGuiEnv.texture "button.png" = some { Width := 600, Height := 100 } ∧
    (GUIOverlay.CreateButton demoGuiEnv "button.png" "font.spritefont" "Play" 0 1 1 .CENTRE
      .CENTRE_TOP { X := 0, Y := 0 } { X := 0, Y := 0 } { X := 1, Y := 1, Z := 1, W := 1 }
      { X := 1, Y := 0, Z := 0, W := 1 } 7 true demoOverlay).map
        (fun r => r.1.mButtons.map fun b => (b.2.mSprite.mWidth, b.2.mSprite.mHeight)) =
      some [(100, 600)] ∧
    (GUIOverlay.LoadSprite_Origin_V2 demoGuiEnv "button.png" .CENTRE { X := 0, Y := 0 }
      { X := 0, Y := 0 } 0 1 true demoOverlay).map
        (fun r => r.1.mSprites.map fun s => (s.2.mWidth, s.2.mHeight)) =
      some [(600, 100)] := by
  decide

/-- The three `Write` overloads that end with `return &mTexts.back();`: each
appends exactly one Text and returns the pointer to it, for every argument
list. -/
theorem Write_appends_one_and_returns_it {F : Type} (env : GuiEnv F) (pText : String)
    (pOriginV : Vector2 F) (pOriginE : TextOrigin) (pPositionV : Vector2 F)
    (pPositionE : TextPosition) (pPadding : Vector2 F) (pFontName : String)
    (pRotation pScale : F) (pColour : Vector4 F) (pIsVisible : Bool) (g : GUIOverlay F) :
    (∃ t, (g.Write_V2_V2 env pText pOriginV pPositionV pPadding pFontName pRotation pScale
        pColour pIsVisible).2.mTexts = g.mTexts ++ [t] ∧
      (g.Write_V2_V2 env pText pOriginV pPositionV pPadding pFontName pRotation pScale
        pColour pIsVisible).1 = some g.mTexts.length) ∧
    (∃ t, (g.Write_Origin_V2 env pText pOriginE pPositionV pPadding pFontName pRotation pScale
        pColour pIsVisible).2.mTexts = g.mTexts ++ [t] ∧
      (g.Write_Origin_V2 env pText pOriginE pPositionV pPadding pFontName pRotation pScale
        pColour pIsVisible).1 = some g.mTexts.length) ∧
    (∃ t, (g.Write_Origin_Pos env pText pOriginE pPositionE pPadding pFontName pRotation pScale
        pColour pIsVisible).2.mTexts = g.mTexts ++ [t] ∧
      (g.Write_Origin_Pos env pText pOriginE pPositionE pPadding pFontName pRotation pScale
        pColour pIsVisible).1 = some g.mTexts.length) := by
  refine ⟨⟨_, rfl, ?_⟩, ⟨_, rfl, ?_⟩, ⟨_, rfl, ?_⟩⟩ <;>
  simp [GUIOverlay.Write_V2_V2, GUIOverlay.Write_Origin_V2, GUIOverlay.Write_Origin_Pos,
    GUIOverlay.LoadFont, backPointer]

/-- The `Write` overload with a `Vector2` origin and a `TextPosition` appends
exactly one Text and returns the null pointer, for every argument list. -/
theorem Write_V2_Pos_appends_one_and_returns_null {F : Type} (env : GuiEnv F) (pText : String)
    (pOrigin : Vector2 F) (pPosition : TextPosition) (pPadding : Vector2 F)
    (pFontName : String) (pRotation pScale : F) (pColour : Vector4 F) (pIsVisible : Bool)
    (g : GUIOverlay F) :
    (∃ t, (g.Write_V2_Pos env pText pOrigin pPosition pPadding pFontName pRotation pScale
        pColour pIsVisible).2.mTexts = g.mTexts ++ [t]) ∧
    (g.Write_V2_Pos env pText pOrigin pPosition pPadding pFontName pRotation pScale
      pColour pIsVisible).1 = none :=
  ⟨⟨_, rfl⟩, rfl⟩

/-- C15 at a concrete input: on a GUI without texts, each of the four `Write`
overloads leaves exactly one Text in `mTexts`; three return the pointer to it,
and the overload with a `Vector2` origin and a `TextPosition` returns the null
pointer. -/
theorem Write_with_anchor_returns_null :
    ((demoOverlay.Write_V2_V2 demoGuiEnv "Score" { X := 0, Y := 0 } { X := 400, Y := 0 }
        { X := 10, Y := 20 } "font.spritefont" 0 1 { X := 1, Y := 1, Z := 1, W := 1 } true).1
        = some 0 ∧
      (demoOverlay.Write_V2_V2 demoGuiEnv "Score" { X := 0, Y := 0 } { X := 400, Y := 0 }
        { X := 10, Y := 20 } "font.spritefont" 0 1 { X := 1, Y := 1, Z := 1, W := 1 }
        true).2.mTexts.length = 1) ∧
    ((demoOverlay.Write_Origin_V2 demoGuiEnv "Score" .CENTRE { X := 400, Y := 0 }
        { X := 10, Y := 20 } "font.spritefont" 0 1 { X := 1, Y := 1, Z := 1, W := 1 } true).1
        = some 0 ∧
      (demoOverlay.Write_Origin_V2 demoGuiEnv "Score" .CENTRE { X := 400, Y := 0 }
        { X := 10, Y := 20 } "font.spritefont" 0 1 { X := 1, Y := 1, Z := 1, W := 1 }
        true).2.mTexts.length = 1) ∧
    ((demoOverlay.Write_Origin_Pos demoGuiEnv "Score" .CENTRE .CENTRE_TOP
        { X := 10, Y := 20 } "font.spritefont" 0 1 { X := 1, Y := 1, Z := 1, W := 1 } true).1
        = some 0 ∧
      (demoOverlay.Write_Origin_Pos demoGuiEnv "Score" .CENTRE .CENTRE_TOP
        { X := 10, Y := 20 } "font.spritefont" 0 1 { X := 1, Y := 1, Z := 1, W := 1 }
        true).2.mTexts.length = 1) ∧
    ((demoOverlay.Write_V2_Pos demoGuiEnv "Score" { X := 0, Y := 0 } .CENTRE_TOP
        { X := 10, Y := 20 } "font.spritefont" 0 1 { X := 1, Y := 1, Z := 1, W := 1 } true).1
        = none ∧
      (demoOverlay.Write_V2_Pos demoGuiEnv "Score" { X := 0, Y := 0 } .CENTRE_TOP
        { X := 10, Y := 20 } "font.spritefont" 0 1 { X := 1, Y := 1, Z := 1, W := 1 }
        true).2.mTexts.length = 1) := by
  decide

/-- The two `Write` overloads that take a `TextPosition`, for every handled
position, device size and padding: the overload with a `TextOrigin` stores
anchor plus padding, the overload with a `Vector2` origin stores anchor plus
padding plus padding. -/
theorem Write_stored_position {F : Type} (env : GuiEnv F) (pText : String)
    (pOriginV : Vector2 F) (pOriginE : TextOrigin) (pPosition : TextPosition)
    (pPadding : Vector2 F) (pFontName : String) (pRotation pScale : F) (pColour : Vector4 F)
    (pIsVisible : Bool) (g : GUIOverlay F) (a : Vector2 F)
    (ha : pPosition.anchor env g.mDeviceWidth g.mDeviceHeight = some a) :
    ((g.Write_Origin_Pos env pText pOriginE pPosition pPadding pFontName pRotation pScale
        pColour pIsVisible).2.mTexts.getLast?.map fun t => t.mPosition) =
      some { x := env.add a.X pPadding.X, y := env.add a.Y pPadding.Y } ∧
    ((g.Write_V2_Pos env pText pOriginV pPosition pPadding pFontName pRotation pScale
        pColour pIsVisible).2.mTexts.getLast?.map fun t => t.mPosition) =
      some { x := env.add (env.add a.X pPadding.X) pPadding.X
             y := env.add (env.add a.Y pPadding.Y) pPadding.Y } := by
  cases pOriginE
  cases pPosition <;> simp [TextPosition.anchor] at ha <;> subst ha <;>
  simp [GUIOverlay.Write_Origin_Pos, GUIOverlay.Write_V2_Pos, GUIOverlay.Write_V2_V2,
    GUIOverlay.LoadFont]

/-- The two `LoadSprite` overloads that take a `SpritePosition`, for every
position, device size, padding and texture that loads: the overload with a
`SpriteOrigin` stores anchor plus padding, the overload with a `Vector2` origin
stores anchor plus padding plus padding. -/
theorem LoadSprite_stored_position {F : Type} (env : GuiEnv F) (pFileName : String)
    (pOriginV : Vector2 F) (pOriginE : SpriteOrigin) (pPosition : SpritePosition)
    (pPadding : Vector2 F) (pRotation pScale : F) (pIsVisible : Bool) (g : GUIOverlay F)
    (desc : D3D11_TEXTURE2D_DESC) (hload : env.texture pFileName = some desc) :
    ((g.LoadSprite_Origin_Pos env pFileName pOriginE pPosition pPadding pRotation pScale
        pIsVisible).bind fun r => r.1.mSprites.getLast?.map fun s => s.2.mPosition) =
      some { x := env.add (pPosition.anchor env g.mDeviceWidth g.mDeviceHeight).X pPadding.X
             y := env.add (pPosition.anchor env g.mDeviceWidth g.mDeviceHeight).Y pPadding.Y } ∧
    ((g.LoadSprite_V2_Pos env pFileName pOriginV pPosition pPadding pRotation pScale
        pIsVisible).bind fun r => r.mSprites.getLast?.map fun s => s.2.mPosition) =
      some { x := env.add (env.add (pPosition.anchor env g.mDeviceWidth g.mDeviceHeight).X
                pPadding.X) pPadding.X
             y := env.add (env.add (pPosition.anchor env g.mDeviceWidth g.mDeviceHeight).Y
                pPadding.Y) pPadding.Y } := by
  cases pOriginE
  cases pPosition <;>
  simp [GUIOverlay.LoadSprite_Origin_Pos, GUIOverlay.LoadSprite_V2_Pos,
    GUIOverlay.LoadSprite_V2_V2, GUIOverlay.loadBackTexture, hload, updateBack_append_singleton,
    SpritePosition.anchor]

/-- C16 at a concrete input: device 800 by 600, anchor `CENTRE_TOP`, that is
`(400, 0)`, and padding `(10, 20)`.  The overloads with an enumerated origin
store `(410, 20)`, anchor plus padding; the overloads with a `Vector2` origin
store `(420, 40)`, the padding applied twice. -/
theorem anchor_overloads_disagree_on_padding :
    (TextPosition.CENTRE_TOP.anchor demoGuiEnv 800 600 = some { X := 400, Y := 0 } ∧
      SpritePosition.CENTRE_TOP.anchor demoGuiEnv 800 600 = { X := 400, Y := 0 }) ∧
    ((demoOverlay.Write_Origin_Pos demoGuiEnv "Score" .CENTRE .CENTRE_TOP { X := 10, Y := 20 }
        "font.spritefont" 0 1 { X := 1, Y := 1, Z := 1, W := 1 } true).2.mTexts.map
          (fun t => t.mPosition) = [{ x := 410, y := 20 }] ∧
      (demoOverlay.Write_V2_Pos demoGuiEnv "Score" { X := 0, Y := 0 } .CENTRE_TOP
        { X := 10, Y := 20 } "font.spritefont" 0 1 { X := 1, Y := 1, Z := 1, W := 1 }
        true).2.mTexts.map (fun t => t.mPosition) = [{ x := 420, y := 40 }]) ∧
    ((demoOverlay.LoadSprite_Origin_Pos demoGuiEnv "button.png" .CENTRE .CENTRE_TOP
        { X := 10, Y := 20 } 0 1 true).map
          (fun r => r.1.mSprites.map fun s => s.2.mPosition) = some [{ x := 410, y := 20 }] ∧
      (demoOverlay.LoadSprite_V2_Pos demoGuiEnv "button.png" { X := 0, Y := 0 } .CENTRE_TOP
        { X := 10, Y := 20 } 0 1 true).map
          (fun r => r.mSprites.map fun s => s.2.mPosition) = some [{ x := 420, y := 40 }]) := by
  decide

end Kodebolds
